import Mathlib

/-!
# Verification of the firewall-configuration ingestion pipeline

A shallow embedding in Lean 4 of the ingestion service found in
`app/services/policy_service.py`, `app/database/clickhouse_handler.py`,
`app/utils/sample_data_loader.py`, `app/utils/data_processor.py` and
`app/clients/fortigate_client.py`, together with proofs about its
behaviour.

Conventions used throughout:

* JSON values (Python objects produced by `json.load`) are modelled by the
  inductive type `Json` below.  Numbers are modelled as integers, which
  covers every payload the repository manipulates.  Python's single `None`
  is identified with JSON `null` (`Json.null`), exactly as in CPython,
  where `json.load` of the document `null` returns the same object `None`
  that an unassigned "no data" variable holds.
* Python objects (dicts) are association lists.  Dicts built by
  `json.loads` have unique keys (later duplicates overwrite earlier ones),
  so lookups below take the first match; on duplicate-free lists this is
  exactly Python's dict lookup.
* Calls into external processes (the network, the ClickHouse server, the
  filesystem) are modelled as explicit parameters giving the outcome of
  the call; exceptions are `Except` errors.
* Python exceptions are the inductive type `PyErr`.  `except SomeClass`
  handlers are translated as matches on the corresponding constructor;
  `except Exception` catches every constructor.
-/

/-- A JSON value / the Python object produced by parsing one.  Numbers are
modelled as integers (the repository's payloads are integral). -/
inductive Json where
  | null : Json
  | bool : Bool → Json
  | num : Int → Json
  | str : String → Json
  | arr : List Json → Json
  | obj : List (String × Json) → Json
  deriving Repr, Inhabited

namespace Json

/-- First-match association-list lookup: Python `d[k]` / `k in d` on the
unique-key dicts produced by `json.loads`. -/
def lookupField : List (String × Json) → String → Option Json
  | [], _ => none
  | (k, v) :: rest, key => if k = key then some v else lookupField rest key

/-- Python truthiness of a parsed-JSON value (`if not raw_json_data`):
`None`, `False`, `0`, `""`, `[]` and `{}` are falsy. -/
def truthy : Json → Bool
  | .null => false
  | .bool b => b
  | .num n => n != 0
  | .str s => s ≠ ""
  | .arr l => !l.isEmpty
  | .obj l => !l.isEmpty

/-- Python `type(x).__name__` for a parsed-JSON value. -/
def typeName : Json → String
  | .null => "NoneType"
  | .bool _ => "bool"
  | .num _ => "int"
  | .str _ => "str"
  | .arr _ => "list"
  | .obj _ => "dict"

end Json

/-! ## The Python `json` module: serialisation (`json.dumps`)

The repository stores payloads with `json.dumps(x, ensure_ascii=False)`
(no `indent`), whose output grammar is: `null` / `true` / `false`,
integers in decimal, strings in double quotes with `"` `\` and control
characters escaped, arrays as `[a, b]` and objects as `{"k": v}` (item
separator `", "`, key separator `": "`). -/

/-- The decimal digit character for `d < 10`. -/
def digitChar : Nat → Char
  | 0 => '0' | 1 => '1' | 2 => '2' | 3 => '3' | 4 => '4'
  | 5 => '5' | 6 => '6' | 7 => '7' | 8 => '8' | _ => '9'

/-- Numeric value of a decimal digit character. -/
def digitVal (c : Char) : Nat := c.toNat - 48

/-- Decimal digits, fuel-driven so that it evaluates by `rfl`; the fuel
bounds the number of divisions by ten. -/
def natDigitsAux : Nat → Nat → List Char
  | 0, _ => []
  | f + 1, n =>
    if n < 10 then [digitChar n]
    else natDigitsAux f (n / 10) ++ [digitChar (n % 10)]

/-- Decimal digits of a natural number, most significant first. -/
def natDigits (n : Nat) : List Char := natDigitsAux (n + 1) n

/-- Python's decimal rendering of an integer (`int.__repr__`, which is
also what `json.dumps` emits for an integer). -/
def intChars (n : Int) : List Char :=
  if n < 0 then '-' :: natDigits n.natAbs else natDigits n.natAbs

/-- Lowercase hexadecimal digit character for `d < 16`. -/
def hexChar : Nat → Char
  | 0 => '0' | 1 => '1' | 2 => '2' | 3 => '3' | 4 => '4'
  | 5 => '5' | 6 => '6' | 7 => '7' | 8 => '8' | 9 => '9'
  | 10 => 'a' | 11 => 'b' | 12 => 'c' | 13 => 'd' | 14 => 'e' | _ => 'f'

/-- How `json.dumps(…, ensure_ascii=False)` renders one character inside a
string literal: `"` and `\` get a backslash, the named control characters
use their short escapes, the remaining control characters use `\u00XX`,
everything else is emitted verbatim. -/
def escapeChar (c : Char) : List Char :=
  if c = '"' then ['\\', '"']
  else if c = '\\' then ['\\', '\\']
  else if c = '\n' then ['\\', 'n']
  else if c = '\r' then ['\\', 'r']
  else if c = '\t' then ['\\', 't']
  else if c.toNat = 8 then ['\\', 'b']
  else if c.toNat = 12 then ['\\', 'f']
  else if c.toNat < 32 then
    ['\\', 'u', '0', '0', hexChar (c.toNat / 16), hexChar (c.toNat % 16)]
  else [c]

/-- JSON string-body escaping, character by character. -/
def escapeChars (cs : List Char) : List Char := (cs.map escapeChar).flatten

mutual

/-- `json.dumps(x, ensure_ascii=False)` at character-list level. -/
def printJson : Json → List Char
  | .null => ['n', 'u', 'l', 'l']
  | .bool true => 't' :: ['r', 'u', 'e']
  | .bool false => 'f' :: ['a', 'l', 's', 'e']
  | .num n => intChars n
  | .str s => '"' :: escapeChars s.data ++ ['"']
  | .arr [] => ['[', ']']
  | .arr (x :: xs) => '[' :: (printJson x ++ printItemsRest xs) ++ [']']
  | .obj [] => ['{', '}']
  | .obj (kv :: kvs) => '{' :: (printField kv ++ printFieldsRest kvs) ++ ['}']

/-- Remaining array items, each preceded by the `", "` separator. -/
def printItemsRest : List Json → List Char
  | [] => []
  | x :: xs => ',' :: ' ' :: (printJson x ++ printItemsRest xs)

/-- One object member: `"key": value`. -/
def printField : String × Json → List Char
  | (k, v) => '"' :: escapeChars k.data ++ '"' :: ':' :: ' ' :: printJson v

/-- Remaining object members, each preceded by the `", "` separator. -/
def printFieldsRest : List (String × Json) → List Char
  | [] => []
  | kv :: kvs => ',' :: ' ' :: (printField kv ++ printFieldsRest kvs)

end

/-- `json.dumps(x, ensure_ascii=False)` as used by the store. -/
def dumps (j : Json) : String := ⟨printJson j⟩

example : dumps (.arr [.num 1, .num (-2)]) = "[1, -2]" := by rfl
example : dumps (.obj [("a", .str "x\"y")]) = "\x7b\"a\": \"x\\\"y\"\x7d" := by rfl
example : dumps (.obj []) = "{}" := by rfl

/-! ## The Python `json` module: parsing (`json.loads`)

A recursive-descent parser for the grammar above, fuelled to make
termination structural and evaluation by `rfl` possible.  It accepts at
least every output of `dumps` (proved below); `json.loads` accepts the
same documents on that fragment.  Failure is `none`, modelling
`json.JSONDecodeError`. -/

/-- Drop leading JSON whitespace. -/
def skipWs : List Char → List Char
  | c :: cs => if c = ' ' ∨ c = '\t' ∨ c = '\n' ∨ c = '\r' then skipWs cs else c :: cs
  | [] => []

/-- Value of a lowercase/uppercase hexadecimal digit, if any. -/
def hexVal? (c : Char) : Option Nat :=
  if '0' ≤ c ∧ c ≤ '9' then some (c.toNat - 48)
  else if 'a' ≤ c ∧ c ≤ 'f' then some (c.toNat - 87)
  else if 'A' ≤ c ∧ c ≤ 'F' then some (c.toNat - 55)
  else none

/-- Maximal run of decimal digits with its value (most significant
first), as consumed by the number grammar. -/
def parseDigits (acc : Nat) : List Char → Nat × List Char
  | c :: cs => if c.isDigit then parseDigits (acc * 10 + digitVal c) cs else (acc, c :: cs)
  | [] => (acc, [])

mutual

/-- Parse the body of a string literal after the opening quote, returning
the decoded characters and the input after the closing quote.  Bare
control characters are rejected, as in `json.loads` strict mode.  One
unit of fuel is spent per decoded character. -/
def parseStringRest : Nat → List Char → Option (List Char × List Char)
  | 0, _ => none
  | _, [] => none
  | fuel + 1, c :: cs =>
    if c = '"' then some ([], cs)
    else if c = '\\' then
      match cs with
      | [] => none
      | e :: cs2 =>
        if e = '"' then (parseStringRest fuel cs2).map fun (s, r) => ('"' :: s, r)
        else if e = '\\' then (parseStringRest fuel cs2).map fun (s, r) => ('\\' :: s, r)
        else if e = '/' then (parseStringRest fuel cs2).map fun (s, r) => ('/' :: s, r)
        else if e = 'n' then (parseStringRest fuel cs2).map fun (s, r) => ('\n' :: s, r)
        else if e = 'r' then (parseStringRest fuel cs2).map fun (s, r) => ('\r' :: s, r)
        else if e = 't' then (parseStringRest fuel cs2).map fun (s, r) => ('\t' :: s, r)
        else if e = 'b' then (parseStringRest fuel cs2).map fun (s, r) => (Char.ofNat 8 :: s, r)
        else if e = 'f' then (parseStringRest fuel cs2).map fun (s, r) => (Char.ofNat 12 :: s, r)
        else if e = 'u' then
          match cs2 with
          | h1 :: h2 :: h3 :: h4 :: cs3 =>
            match hexVal? h1, hexVal? h2, hexVal? h3, hexVal? h4 with
            | some v1, some v2, some v3, some v4 =>
              (parseStringRest fuel cs3).map fun (s, r) =>
                (Char.ofNat (((v1 * 16 + v2) * 16 + v3) * 16 + v4) :: s, r)
            | _, _, _, _ => none
          | _ => none
        else none
    else if c.toNat < 32 then none
    else (parseStringRest fuel cs).map fun (s, r) => (c :: s, r)

/-- Parse one JSON value (fuelled recursive descent). -/
def parseValue : Nat → List Char → Option (Json × List Char)
  | 0, _ => none
  | fuel + 1, cs =>
    match skipWs cs with
    | [] => none
    | c :: cs1 =>
      if c = 'n' then
        match cs1 with
        | 'u' :: 'l' :: 'l' :: r => some (.null, r)
        | _ => none
      else if c = 't' then
        match cs1 with
        | 'r' :: 'u' :: 'e' :: r => some (.bool true, r)
        | _ => none
      else if c = 'f' then
        match cs1 with
        | 'a' :: 'l' :: 's' :: 'e' :: r => some (.bool false, r)
        | _ => none
      else if c = '"' then
        (parseStringRest fuel cs1).map fun (s, r) => (.str ⟨s⟩, r)
      else if c = '[' then
        match skipWs cs1 with
        | ']' :: r => some (.arr [], r)
        | cs2 => (parseItems fuel cs2).map fun (l, r) => (.arr l, r)
      else if c = '{' then
        match skipWs cs1 with
        | '}' :: r => some (.obj [], r)
        | cs2 => (parseFields fuel cs2).map fun (l, r) => (.obj l, r)
      else if c = '-' then
        match cs1 with
        | d :: _ =>
          if d.isDigit then
            match parseDigits 0 cs1 with
            | (v, r) => some (.num (-(v : Int)), r)
          else none
        | [] => none
      else if c.isDigit then
        match parseDigits 0 (c :: cs1) with
        | (v, r) => some (.num (v : Int), r)
      else none

/-- Parse a non-empty comma-separated item list and the closing `]`. -/
def parseItems : Nat → List Char → Option (List Json × List Char)
  | 0, _ => none
  | fuel + 1, cs =>
    (parseValue fuel cs).bind fun (j, r) =>
      match skipWs r with
      | ',' :: r2 => (parseItems fuel (skipWs r2)).map fun (l, r3) => (j :: l, r3)
      | ']' :: r2 => some ([j], r2)
      | _ => none

/-- Parse a non-empty comma-separated member list and the closing `}`. -/
def parseFields : Nat → List Char → Option (List (String × Json) × List Char)
  | 0, _ => none
  | fuel + 1, cs =>
    match skipWs cs with
    | '"' :: cs1 =>
      (parseStringRest fuel cs1).bind fun (k, r) =>
        match skipWs r with
        | ':' :: r2 =>
          (parseValue fuel (skipWs r2)).bind fun (v, r3) =>
            match skipWs r3 with
            | ',' :: r4 => (parseFields fuel (skipWs r4)).map fun (l, r5) => ((⟨k⟩, v) :: l, r5)
            | '}' :: r4 => some ([(⟨k⟩, v)], r4)
            | _ => none
        | _ => none
    | _ => none

end

/-- `json.loads`: parse a complete document, requiring only trailing
whitespace after the value. -/
def loads (s : String) : Option Json :=
  match parseValue (s.data.length + 1) s.data with
  | some (j, r) => if skipWs r = [] then some j else none
  | none => none

example : loads "[1, -2]" = some (.arr [.num 1, .num (-2)]) := by rfl
example : loads "not json" = none := by rfl
example : loads "\x7b\"a\": \"x\\\"y\"\x7d" = some (.obj [("a", .str "x\"y")]) := by rfl

/-! ## Round-trip: `loads (dumps j) = some j`

The store serialises every payload with `dumps` and deserialises with
`loads`; the claims about retrieval reproducing the original payload rest
on the following lemmas. -/

theorem skipWs_cons_of_not_ws {c : Char} (cs : List Char)
    (h : ¬(c = ' ' ∨ c = '\t' ∨ c = '\n' ∨ c = '\r')) : skipWs (c :: cs) = c :: cs := by
  simp [skipWs, h]

theorem skipWs_space (cs : List Char) : skipWs (' ' :: cs) = skipWs cs := by
  simp [skipWs]

theorem digitVal_digitChar {d : Nat} (h : d < 10) : digitVal (digitChar d) = d := by
  interval_cases d <;> rfl

theorem isDigit_digitChar {d : Nat} (h : d < 10) : (digitChar d).isDigit = true := by
  interval_cases d <;> rfl

theorem natDigitsAux_congr :
    ∀ f1 f2 n, n < f1 → n < f2 → natDigitsAux f1 n = natDigitsAux f2 n := by
  intro f1
  induction f1 with
  | zero => intro f2 n h; omega
  | succ f ih =>
    intro f2 n h1 h2
    match f2, h2 with
    | g + 1, h2 =>
      by_cases hn : n < 10
      · simp [natDigitsAux, hn]
      · have hdiv : n / 10 < n := Nat.div_lt_self (by omega) (by omega)
        simp only [natDigitsAux, if_neg hn]
        rw [ih g (n / 10) (by omega) (by omega)]

theorem natDigits_eq (n : Nat) :
    natDigits n = if n < 10 then [digitChar n] else natDigits (n / 10) ++ [digitChar (n % 10)] := by
  by_cases hn : n < 10
  · simp [natDigits, natDigitsAux, hn]
  · have hdiv : n / 10 < n := Nat.div_lt_self (by omega) (by omega)
    have hstep : natDigits n = natDigitsAux n (n / 10) ++ [digitChar (n % 10)] := by
      simp [natDigits, natDigitsAux, hn]
    rw [hstep, natDigitsAux_congr n (n / 10 + 1) (n / 10) (by omega) (by omega), if_neg hn]
    rfl

theorem natDigits_ne_nil (n : Nat) : natDigits n ≠ [] := by
  rw [natDigits_eq]
  split <;> simp

theorem natDigits_all_digits : ∀ n, ∀ c ∈ natDigits n, c.isDigit = true := by
  intro n
  induction n using Nat.strong_induction_on with
  | _ n ih =>
    rw [natDigits_eq]
    by_cases hn : n < 10
    · simp only [if_pos hn, List.mem_singleton]
      intro c hc; subst hc; exact isDigit_digitChar hn
    · have hdiv : n / 10 < n := Nat.div_lt_self (by omega) (by omega)
      simp only [if_neg hn, List.mem_append, List.mem_singleton]
      rintro c (hc | hc)
      · exact ih (n / 10) hdiv c hc
      · subst hc; exact isDigit_digitChar (Nat.mod_lt n (by omega))

theorem parseDigits_append (ds : List Char) :
    ∀ acc r, (∀ c ∈ ds, c.isDigit = true) →
      parseDigits acc (ds ++ r) = parseDigits (ds.foldl (fun a c => a * 10 + digitVal c) acc) r := by
  induction ds with
  | nil => intro acc r _; rfl
  | cons d ds ih =>
    intro acc r h
    have hd : d.isDigit = true := h d (List.mem_cons_self d ds)
    simp only [List.cons_append, parseDigits, hd, if_pos, List.append_eq]
    rw [ih (acc * 10 + digitVal d) r (fun c hc => h c (List.mem_cons_of_mem d hc))]
    rfl

theorem foldl_natDigits : ∀ n acc,
    (natDigits n).foldl (fun a c => a * 10 + digitVal c) acc
      = acc * 10 ^ (natDigits n).length + n := by
  intro n
  induction n using Nat.strong_induction_on with
  | _ n ih =>
    intro acc
    rw [natDigits_eq]
    by_cases hn : n < 10
    · simp [if_pos hn, List.foldl, digitVal_digitChar hn]
    · have hdiv : n / 10 < n := Nat.div_lt_self (by omega) (by omega)
      simp only [if_neg hn, List.foldl_append, List.length_append, List.foldl,
        List.length_singleton]
      rw [ih (n / 10) hdiv acc, digitVal_digitChar (Nat.mod_lt n (by omega))]
      rw [pow_succ]
      have h1 : n / 10 * 10 + n % 10 = n := by omega
      calc (acc * 10 ^ (natDigits (n / 10)).length + n / 10) * 10 + n % 10
          = acc * (10 ^ (natDigits (n / 10)).length * 10) + (n / 10 * 10 + n % 10) := by ring
        _ = acc * (10 ^ (natDigits (n / 10)).length * 10) + n := by rw [h1]

/-- The continuation after a printed value never begins with a digit (it
is empty or begins with a separator or a closing bracket), so the
maximal-munch number parser stops exactly at the printed digits. -/
def headNotDigit : List Char → Prop
  | [] => True
  | c :: _ => c.isDigit = false

theorem parseDigits_stop {r : List Char} (acc : Nat) (h : headNotDigit r) :
    parseDigits acc r = (acc, r) := by
  cases r with
  | nil => rfl
  | cons c cs => simp_all [parseDigits, headNotDigit]

theorem parseDigits_natDigits (n : Nat) (r : List Char) (h : headNotDigit r) :
    parseDigits 0 (natDigits n ++ r) = (n, r) := by
  rw [parseDigits_append (natDigits n) 0 r (natDigits_all_digits n),
    foldl_natDigits n 0, parseDigits_stop _ h]
  simp

theorem natDigits_head (n : Nat) :
    ∃ d ds, natDigits n = d :: ds ∧ d.isDigit = true := by
  cases hnd : natDigits n with
  | nil => exact absurd hnd (natDigits_ne_nil n)
  | cons d ds =>
    refine ⟨d, ds, rfl, ?_⟩
    have := natDigits_all_digits n d
    rw [hnd] at this
    exact this (List.mem_cons_self d ds)

theorem hexVal?_hexChar {h : Nat} (hh : h < 16) : hexVal? (hexChar h) = some h := by
  interval_cases h <;> decide

theorem escapeChars_cons (c : Char) (s : List Char) :
    escapeChars (c :: s) = escapeChar c ++ escapeChars s := by
  simp [escapeChars]

theorem psr_step_quote (f : Nat) (cs : List Char) :
    parseStringRest (f + 1) ('"' :: cs) = some ([], cs) := rfl

theorem psr_step_esc_quote (f : Nat) (cs : List Char) :
    parseStringRest (f + 1) ('\\' :: '"' :: cs)
      = (parseStringRest f cs).map fun (s, r) => ('"' :: s, r) := rfl

theorem psr_step_esc_backslash (f : Nat) (cs : List Char) :
    parseStringRest (f + 1) ('\\' :: '\\' :: cs)
      = (parseStringRest f cs).map fun (s, r) => ('\\' :: s, r) := rfl

theorem psr_step_esc_n (f : Nat) (cs : List Char) :
    parseStringRest (f + 1) ('\\' :: 'n' :: cs)
      = (parseStringRest f cs).map fun (s, r) => ('\n' :: s, r) := rfl

theorem psr_step_esc_r (f : Nat) (cs : List Char) :
    parseStringRest (f + 1) ('\\' :: 'r' :: cs)
      = (parseStringRest f cs).map fun (s, r) => ('\r' :: s, r) := rfl

theorem psr_step_esc_t (f : Nat) (cs : List Char) :
    parseStringRest (f + 1) ('\\' :: 't' :: cs)
      = (parseStringRest f cs).map fun (s, r) => ('\t' :: s, r) := rfl

theorem psr_step_esc_b (f : Nat) (cs : List Char) :
    parseStringRest (f + 1) ('\\' :: 'b' :: cs)
      = (parseStringRest f cs).map fun (s, r) => (Char.ofNat 8 :: s, r) := rfl

theorem psr_step_esc_f (f : Nat) (cs : List Char) :
    parseStringRest (f + 1) ('\\' :: 'f' :: cs)
      = (parseStringRest f cs).map fun (s, r) => (Char.ofNat 12 :: s, r) := rfl

theorem psr_step_esc_u (f : Nat) (h3 h4 : Char) (v3 v4 : Nat) (cs : List Char)
    (e3 : hexVal? h3 = some v3) (e4 : hexVal? h4 = some v4) :
    parseStringRest (f + 1) ('\\' :: 'u' :: '0' :: '0' :: h3 :: h4 :: cs)
      = (parseStringRest f cs).map fun (s, r) =>
          (Char.ofNat (((0 * 16 + 0) * 16 + v3) * 16 + v4) :: s, r) := by
  have raw : parseStringRest (f + 1) ('\\' :: 'u' :: '0' :: '0' :: h3 :: h4 :: cs)
      = (match hexVal? '0', hexVal? '0', hexVal? h3, hexVal? h4 with
         | some v1, some v2, some v3, some v4 =>
           (parseStringRest f cs).map fun (s, r) =>
             (Char.ofNat (((v1 * 16 + v2) * 16 + v3) * 16 + v4) :: s, r)
         | _, _, _, _ => none) := rfl
  rw [raw, show hexVal? '0' = some 0 from rfl, e3, e4]

theorem psr_step_plain (f : Nat) (c : Char) (cs : List Char)
    (hq : ¬c = '"') (hb : ¬c = '\\') (hc : ¬c.toNat < 32) :
    parseStringRest (f + 1) (c :: cs)
      = (parseStringRest f cs).map fun (s, r) => (c :: s, r) := by
  have raw : parseStringRest (f + 1) (c :: cs)
      = (if c = '"' then some ([], cs)
         else if c = '\\' then
           match cs with
           | [] => none
           | e :: cs2 =>
             if e = '"' then (parseStringRest f cs2).map fun (s, r) => ('"' :: s, r)
             else if e = '\\' then (parseStringRest f cs2).map fun (s, r) => ('\\' :: s, r)
             else if e = '/' then (parseStringRest f cs2).map fun (s, r) => ('/' :: s, r)
             else if e = 'n' then (parseStringRest f cs2).map fun (s, r) => ('\n' :: s, r)
             else if e = 'r' then (parseStringRest f cs2).map fun (s, r) => ('\r' :: s, r)
             else if e = 't' then (parseStringRest f cs2).map fun (s, r) => ('\t' :: s, r)
             else if e = 'b' then (parseStringRest f cs2).map fun (s, r) => (Char.ofNat 8 :: s, r)
             else if e = 'f' then (parseStringRest f cs2).map fun (s, r) => (Char.ofNat 12 :: s, r)
             else if e = 'u' then
               match cs2 with
               | h1 :: h2 :: h3 :: h4 :: cs3 =>
                 match hexVal? h1, hexVal? h2, hexVal? h3, hexVal? h4 with
                 | some v1, some v2, some v3, some v4 =>
                   (parseStringRest f cs3).map fun (s, r) =>
                     (Char.ofNat (((v1 * 16 + v2) * 16 + v3) * 16 + v4) :: s, r)
                 | _, _, _, _ => none
               | _ => none
             else none
         else if c.toNat < 32 then none
         else (parseStringRest f cs).map fun (s, r) => (c :: s, r)) := rfl
  rw [raw, if_neg hq, if_neg hb, if_neg hc]

theorem parseStringRest_print :
    ∀ (s : List Char) (fuel : Nat) (r : List Char), s.length + 1 ≤ fuel →
      parseStringRest fuel (escapeChars s ++ '"' :: r) = some (s, r) := by
  intro s
  induction s with
  | nil =>
    intro fuel r hf
    obtain ⟨f, rfl⟩ : ∃ f, fuel = f + 1 := ⟨fuel - 1, by omega⟩
    rw [show escapeChars [] = [] from rfl, List.nil_append, psr_step_quote]
  | cons c s ih =>
    intro fuel r hf
    obtain ⟨f, rfl⟩ : ∃ f, fuel = f + 1 := ⟨fuel - 1, by omega⟩
    have hs : s.length + 1 ≤ f := by simp at hf; omega
    rw [escapeChars_cons, List.append_assoc]
    by_cases h1 : c = '"'
    · subst h1
      rw [show escapeChar '"' = ['\\', '"'] from rfl]
      simp only [List.cons_append, List.nil_append]
      rw [psr_step_esc_quote, ih f r hs]
      rfl
    · by_cases h2 : c = '\\'
      · subst h2
        rw [show escapeChar '\\' = ['\\', '\\'] from rfl]
        simp only [List.cons_append, List.nil_append]
        rw [psr_step_esc_backslash, ih f r hs]
        rfl
      · by_cases h3 : c = '\n'
        · subst h3
          rw [show escapeChar '\n' = ['\\', 'n'] from rfl]
          simp only [List.cons_append, List.nil_append]
          rw [psr_step_esc_n, ih f r hs]
          rfl
        · by_cases h4 : c = '\r'
          · subst h4
            rw [show escapeChar '\r' = ['\\', 'r'] from rfl]
            simp only [List.cons_append, List.nil_append]
            rw [psr_step_esc_r, ih f r hs]
            rfl
          · by_cases h5 : c = '\t'
            · subst h5
              rw [show escapeChar '\t' = ['\\', 't'] from rfl]
              simp only [List.cons_append, List.nil_append]
              rw [psr_step_esc_t, ih f r hs]
              rfl
            · by_cases h6 : c.toNat = 8
              · have hc : c = Char.ofNat 8 := by rw [← h6, Char.ofNat_toNat]
                rw [show escapeChar c = ['\\', 'b'] from by
                  simp only [escapeChar, if_neg h1, if_neg h2, if_neg h3, if_neg h4,
                    if_neg h5, if_pos h6]]
                simp only [List.cons_append, List.nil_append]
                rw [psr_step_esc_b, ih f r hs, ← hc]
                rfl
              · by_cases h7 : c.toNat = 12
                · have hc : c = Char.ofNat 12 := by rw [← h7, Char.ofNat_toNat]
                  rw [show escapeChar c = ['\\', 'f'] from by
                    simp only [escapeChar, if_neg h1, if_neg h2, if_neg h3, if_neg h4,
                      if_neg h5, if_neg h6, if_pos h7]]
                  simp only [List.cons_append, List.nil_append]
                  rw [psr_step_esc_f, ih f r hs, ← hc]
                  rfl
                · by_cases h8 : c.toNat < 32
                  · have e3 : hexVal? (hexChar (c.toNat / 16)) = some (c.toNat / 16) :=
                      hexVal?_hexChar (by omega)
                    have e4 : hexVal? (hexChar (c.toNat % 16)) = some (c.toNat % 16) :=
                      hexVal?_hexChar (by omega)
                    have hc : Char.ofNat (c.toNat / 16 * 16 + c.toNat % 16) = c := by
                      have harith : c.toNat / 16 * 16 + c.toNat % 16 = c.toNat := by omega
                      rw [harith, Char.ofNat_toNat]
                    rw [show escapeChar c
                        = ['\\', 'u', '0', '0', hexChar (c.toNat / 16), hexChar (c.toNat % 16)] from by
                      simp only [escapeChar, if_neg h1, if_neg h2, if_neg h3, if_neg h4,
                        if_neg h5, if_neg h6, if_neg h7, if_pos h8]]
                    simp only [List.cons_append, List.nil_append]
                    rw [psr_step_esc_u f _ _ _ _ _ e3 e4, ih f r hs]
                    simp [hc]
                  · rw [show escapeChar c = [c] from by
                      simp only [escapeChar, if_neg h1, if_neg h2, if_neg h3, if_neg h4,
                        if_neg h5, if_neg h6, if_neg h7, if_neg h8]]
                    simp only [List.cons_append, List.nil_append]
                    rw [psr_step_plain f c _ h1 h2 h8, ih f r hs]
                    rfl

theorem isDigit_toNat {c : Char} (h : c.isDigit = true) : 48 ≤ c.toNat ∧ c.toNat ≤ 57 := by
  simp only [Char.isDigit, ge_iff_le, Bool.and_eq_true, decide_eq_true_eq] at h
  obtain ⟨h1, h2⟩ := h
  constructor
  · exact_mod_cast UInt32.le_def.mp h1
  · exact_mod_cast UInt32.le_def.mp h2

theorem isDigit_cases {c : Char} (h : c.isDigit = true) :
    c = '0' ∨ c = '1' ∨ c = '2' ∨ c = '3' ∨ c = '4' ∨
    c = '5' ∨ c = '6' ∨ c = '7' ∨ c = '8' ∨ c = '9' := by
  obtain ⟨h1, h2⟩ := isDigit_toNat h
  have hc : c = Char.ofNat c.toNat := (Char.ofNat_toNat c).symm
  interval_cases hv : c.toNat <;> rw [hc] <;> decide

theorem isDigit_ne {c d : Char} (h : c.isDigit = true) (hd : d.isDigit = false) : c ≠ d := by
  intro he
  subst he
  rw [h] at hd
  exact absurd hd (by decide)

/-! Single-step unfolding lemmas for the fuelled parser; each is proved by
definitional reduction on a constructor-headed input. -/

theorem pv_step_null (f : Nat) (r : List Char) :
    parseValue (f + 1) ('n' :: 'u' :: 'l' :: 'l' :: r) = some (.null, r) := rfl

theorem pv_step_true (f : Nat) (r : List Char) :
    parseValue (f + 1) ('t' :: 'r' :: 'u' :: 'e' :: r) = some (.bool true, r) := rfl

theorem pv_step_false (f : Nat) (r : List Char) :
    parseValue (f + 1) ('f' :: 'a' :: 'l' :: 's' :: 'e' :: r) = some (.bool false, r) := rfl

theorem pv_step_str (f : Nat) (cs : List Char) :
    parseValue (f + 1) ('"' :: cs)
      = (parseStringRest f cs).map fun (s, r) => (.str ⟨s⟩, r) := rfl

theorem pv_step_arr_empty (f : Nat) (r : List Char) :
    parseValue (f + 1) ('[' :: ']' :: r) = some (.arr [], r) := rfl

theorem pv_step_obj_empty (f : Nat) (r : List Char) :
    parseValue (f + 1) ('{' :: '}' :: r) = some (.obj [], r) := rfl

theorem pv_step_obj_str (f : Nat) (cs : List Char) :
    parseValue (f + 1) ('{' :: '"' :: cs)
      = (parseFields f ('"' :: cs)).map fun (l, r) => (.obj l, r) := rfl

theorem pv_step_arr_items (f : Nat) (cs : List Char) (c : Char) (cs1 : List Char)
    (h : skipWs cs = c :: cs1) (hne : ¬c = ']') :
    parseValue (f + 1) ('[' :: cs)
      = (parseItems f (c :: cs1)).map fun (l, r) => (.arr l, r) := by
  have raw : parseValue (f + 1) ('[' :: cs)
      = (match skipWs cs with
         | ']' :: r => some (.arr [], r)
         | cs2 => (parseItems f cs2).map fun (l, r) => (.arr l, r)) := rfl
  rw [raw, h]
  split
  · next r heq => exact absurd (List.head_eq_of_cons_eq heq.symm).symm hne
  · rfl

theorem pv_step_digit (f : Nat) (c : Char) (cs : List Char) (hd : c.isDigit = true) :
    parseValue (f + 1) (c :: cs)
      = some (.num ((parseDigits 0 (c :: cs)).1 : Int), (parseDigits 0 (c :: cs)).2) := by
  rcases isDigit_cases hd with rfl | rfl | rfl | rfl | rfl | rfl | rfl | rfl | rfl | rfl <;> rfl

theorem pv_step_neg (f : Nat) (d : Char) (cs : List Char) (hd : d.isDigit = true) :
    parseValue (f + 1) ('-' :: d :: cs)
      = some (.num (-((parseDigits 0 (d :: cs)).1 : Int)), (parseDigits 0 (d :: cs)).2) := by
  rcases isDigit_cases hd with rfl | rfl | rfl | rfl | rfl | rfl | rfl | rfl | rfl | rfl <;> rfl

theorem pi_step (f : Nat) (cs : List Char) :
    parseItems (f + 1) cs
      = (parseValue f cs).bind fun (j, r) =>
          match skipWs r with
          | ',' :: r2 => (parseItems f (skipWs r2)).map fun (l, r3) => (j :: l, r3)
          | ']' :: r2 => some ([j], r2)
          | _ => none := rfl

theorem pf_step (f : Nat) (cs : List Char) :
    parseFields (f + 1) cs
      = (match skipWs cs with
         | '"' :: cs1 =>
           (parseStringRest f cs1).bind fun (k, r) =>
             match skipWs r with
             | ':' :: r2 =>
               (parseValue f (skipWs r2)).bind fun (v, r3) =>
                 match skipWs r3 with
                 | ',' :: r4 => (parseFields f (skipWs r4)).map fun (l, r5) => ((⟨k⟩, v) :: l, r5)
                 | '}' :: r4 => some ([(⟨k⟩, v)], r4)
                 | _ => none
             | _ => none
         | _ => none) := rfl

mutual

/-- Fuel sufficient for `parseValue` to parse the printed form of a value
(one unit per grammar step, one per decoded string character). -/
def fuelFor : Json → Nat
  | .null => 1
  | .bool _ => 1
  | .num _ => 1
  | .str s => s.length + 2
  | .arr [] => 1
  | .arr (x :: xs) => 1 + fuelItems (x :: xs)
  | .obj [] => 1
  | .obj (kv :: kvs) => 1 + fuelFields (kv :: kvs)

/-- Fuel sufficient for `parseItems` on a printed item list. -/
def fuelItems : List Json → Nat
  | [] => 0
  | x :: xs => 1 + fuelFor x + fuelItems xs

/-- Fuel sufficient for `parseFields` on a printed member list. -/
def fuelFields : List (String × Json) → Nat
  | [] => 0
  | (k, v) :: kvs => k.length + 2 + fuelFor v + fuelFields kvs

end

theorem fuelFor_pos : ∀ j, 1 ≤ fuelFor j
  | .null => le_refl 1
  | .bool _ => le_refl 1
  | .num _ => le_refl 1
  | .str _ => by simp [fuelFor]
  | .arr [] => le_refl 1
  | .arr (_ :: _) => by simp [fuelFor]
  | .obj [] => le_refl 1
  | .obj (_ :: _) => by simp [fuelFor]

theorem escapeChar_length_pos (c : Char) : 1 ≤ (escapeChar c).length := by
  unfold escapeChar
  split_ifs <;> simp

theorem escapeChars_length (s : List Char) : s.length ≤ (escapeChars s).length := by
  induction s with
  | nil => simp [escapeChars]
  | cons c s ih =>
    rw [escapeChars_cons, List.length_append, List.length_cons]
    have := escapeChar_length_pos c
    omega

mutual

theorem fuelFor_le_len : ∀ j, fuelFor j ≤ (printJson j).length
  | .null => by simp [fuelFor, printJson]
  | .bool b => by cases b <;> simp [fuelFor, printJson]
  | .num n => by
    have := natDigits_ne_nil n.natAbs
    have hlen : 1 ≤ (natDigits n.natAbs).length := by
      cases h : natDigits n.natAbs with
      | nil => exact absurd h this
      | cons a l => simp [h]
    simp only [fuelFor, printJson, intChars]
    split
    · simp
    · simp
      omega


  | .str s => by
    have h := escapeChars_length s.data
    simp only [fuelFor, printJson, List.length_cons, List.length_append,
      List.length_singleton, String.length]
    omega
  | .arr [] => by simp [fuelFor, printJson]
  | .arr (x :: xs) => by
    have h1 := fuelFor_le_len x
    have h2 := fuelItems_le_len xs
    simp only [fuelFor, fuelItems, printJson, List.length_cons, List.length_append,
      List.length_singleton]
    omega
  | .obj [] => by simp [fuelFor, printJson]
  | .obj (kv :: kvs) => by
    have h1 := fuelField_le_len kv
    have h2 := fuelFields_le_len kvs
    simp only [fuelFor, fuelFields, printJson, List.length_cons, List.length_append,
      List.length_singleton]
    obtain ⟨k, v⟩ := kv
    simp only [fuelFields] at *
    omega

theorem fuelItems_le_len : ∀ l, fuelItems l ≤ (printItemsRest l).length
  | [] => by simp [fuelItems, printItemsRest]
  | x :: xs => by
    have h1 := fuelFor_le_len x
    have h2 := fuelItems_le_len xs
    simp only [fuelItems, printItemsRest, List.length_cons, List.length_append]
    omega

theorem fuelField_le_len : ∀ kv : String × Json,
    kv.1.length + 2 + fuelFor kv.2 ≤ (printField kv).length
  | (k, v) => by
    have h1 := fuelFor_le_len v
    have h2 := escapeChars_length k.data
    simp only [printField, List.length_cons, List.length_append, String.length]
    omega

theorem fuelFields_le_len : ∀ l, fuelFields l ≤ (printFieldsRest l).length
  | [] => by simp [fuelFields, printFieldsRest]
  | kv :: kvs => by
    have h1 := fuelField_le_len kv
    have h2 := fuelFields_le_len kvs
    simp only [fuelFields, printFieldsRest, List.length_cons, List.length_append]
    obtain ⟨k, v⟩ := kv
    simp only [fuelFields] at *
    omega

end

/-- The first character of a printed JSON value selects the right parser
branch. -/
def goodHead (c : Char) : Prop :=
  c = 'n' ∨ c = 't' ∨ c = 'f' ∨ c = '"' ∨ c = '[' ∨ c = '{' ∨ c = '-' ∨ c.isDigit = true

theorem printJson_head (j : Json) : ∃ c cs, printJson j = c :: cs ∧ goodHead c := by
  cases j with
  | null => exact ⟨'n', _, rfl, Or.inl rfl⟩
  | bool b =>
    cases b
    · exact ⟨'f', _, rfl, Or.inr (Or.inr (Or.inl rfl))⟩
    · exact ⟨'t', _, rfl, Or.inr (Or.inl rfl)⟩
  | num n =>
    by_cases hneg : n < 0
    · refine ⟨'-', natDigits n.natAbs, ?_, ?_⟩
      · simp [printJson, intChars, hneg]
      · exact Or.inr (Or.inr (Or.inr (Or.inr (Or.inr (Or.inr (Or.inl rfl))))))
    · obtain ⟨d, ds, hnd, hdd⟩ := natDigits_head n.natAbs
      refine ⟨d, ds, ?_, ?_⟩
      · simp [printJson, intChars, hneg, hnd]
      · exact Or.inr (Or.inr (Or.inr (Or.inr (Or.inr (Or.inr (Or.inr hdd))))))
  | str s => exact ⟨'"', _, rfl, Or.inr (Or.inr (Or.inr (Or.inl rfl)))⟩
  | arr l => cases l with
    | nil => exact ⟨'[', _, rfl, Or.inr (Or.inr (Or.inr (Or.inr (Or.inl rfl))))⟩
    | cons x xs => exact ⟨'[', _, rfl, Or.inr (Or.inr (Or.inr (Or.inr (Or.inl rfl))))⟩
  | obj l => cases l with
    | nil => exact ⟨'{', _, rfl, Or.inr (Or.inr (Or.inr (Or.inr (Or.inr (Or.inl rfl)))))⟩
    | cons kv kvs => exact ⟨'{', _, rfl, Or.inr (Or.inr (Or.inr (Or.inr (Or.inr (Or.inl rfl)))))⟩

theorem goodHead_not_ws {c : Char} (h : goodHead c) :
    ¬(c = ' ' ∨ c = '\t' ∨ c = '\n' ∨ c = '\r') := by
  rcases h with rfl | rfl | rfl | rfl | rfl | rfl | rfl | hd
  · decide
  · decide
  · decide
  · decide
  · decide
  · decide
  · decide
  · rintro (rfl | rfl | rfl | rfl) <;> exact absurd hd (by decide)

theorem goodHead_ne_rbracket {c : Char} (h : goodHead c) : ¬c = ']' := by
  rcases h with rfl | rfl | rfl | rfl | rfl | rfl | rfl | hd
  · decide
  · decide
  · decide
  · decide
  · decide
  · decide
  · decide
  · intro hrt; subst hrt; exact absurd hd (by decide)

theorem skipWs_print (j : Json) (r : List Char) :
    skipWs (printJson j ++ r) = printJson j ++ r := by
  obtain ⟨c, cs, hpx, hgh⟩ := printJson_head j
  rw [hpx, List.cons_append]
  exact skipWs_cons_of_not_ws _ (goodHead_not_ws hgh)

theorem hnd_items (xs : List Json) (r : List Char) :
    headNotDigit (printItemsRest xs ++ ']' :: r) := by
  cases xs with
  | nil => exact (by decide : (']').isDigit = false)
  | cons y ys => exact (by decide : (',').isDigit = false)

theorem hnd_fields (kvs : List (String × Json)) (r : List Char) :
    headNotDigit (printFieldsRest kvs ++ '}' :: r) := by
  cases kvs with
  | nil => exact (by decide : ('}').isDigit = false)
  | cons kv2 kvs2 =>
    cases kv2
    exact (by decide : (',').isDigit = false)

theorem skipWs_printField (kv : String × Json) (x : List Char) :
    skipWs (printField kv ++ x) = printField kv ++ x := by
  obtain ⟨k2, v2⟩ := kv
  rw [show printField (k2, v2)
      = '"' :: (escapeChars k2.data ++ '"' :: ':' :: ' ' :: printJson v2) from rfl,
    List.cons_append]
  exact skipWs_cons_of_not_ws _ (by decide)

theorem parse_print_main : ∀ fuel : Nat,
    (∀ j r, fuelFor j ≤ fuel → headNotDigit r →
       parseValue fuel (printJson j ++ r) = some (j, r)) ∧
    (∀ x xs r, fuelItems (x :: xs) ≤ fuel →
       parseItems fuel (printJson x ++ (printItemsRest xs ++ ']' :: r)) = some (x :: xs, r)) ∧
    (∀ (k : String) (v : Json) kvs r, fuelFields ((k, v) :: kvs) ≤ fuel →
       parseFields fuel (printField (k, v) ++ (printFieldsRest kvs ++ '}' :: r))
         = some ((k, v) :: kvs, r)) := by
  intro fuel
  induction fuel with
  | zero =>
    refine ⟨?_, ?_, ?_⟩
    · intro j r hf _
      have := fuelFor_pos j
      omega
    · intro x xs r hf
      simp only [fuelItems] at hf
      omega
    · intro k v kvs r hf
      simp only [fuelFields] at hf
      omega
  | succ f ih =>
    obtain ⟨ihv, ihi, ihf⟩ := ih
    refine ⟨?_, ?_, ?_⟩
    · -- parseValue on a printed value
      intro j r hfuel hr
      cases j with
      | null =>
        rw [show printJson .null ++ r = 'n' :: 'u' :: 'l' :: 'l' :: r from rfl]
        exact pv_step_null f r
      | bool b =>
        cases b
        · rw [show printJson (.bool false) ++ r = 'f' :: 'a' :: 'l' :: 's' :: 'e' :: r from rfl]
          exact pv_step_false f r
        · rw [show printJson (.bool true) ++ r = 't' :: 'r' :: 'u' :: 'e' :: r from rfl]
          exact pv_step_true f r
      | num n =>
        obtain ⟨d, ds, hnd, hdd⟩ := natDigits_head n.natAbs
        have hre : d :: (ds ++ r) = natDigits n.natAbs ++ r := by
          rw [hnd, List.cons_append]
        by_cases hneg : n < 0
        · have hpr : printJson (.num n) = '-' :: natDigits n.natAbs := by
            simp [printJson, intChars, hneg]
          rw [hpr, hnd, List.cons_append, List.cons_append,
            pv_step_neg f d (ds ++ r) hdd, hre, parseDigits_natDigits _ _ hr]
          have hcast : (-(n.natAbs : Int)) = n := by omega
          show some (Json.num (-(n.natAbs : Int)), r) = some (Json.num n, r)
          rw [hcast]
        · have hpr : printJson (.num n) = natDigits n.natAbs := by
            simp [printJson, intChars, hneg]
          rw [hpr, hnd, List.cons_append,
            pv_step_digit f d (ds ++ r) hdd, hre, parseDigits_natDigits _ _ hr]
          have hcast : ((n.natAbs : Int)) = n := by omega
          show some (Json.num ((n.natAbs : Int)), r) = some (Json.num n, r)
          rw [hcast]
      | str s =>
        have hpr : printJson (.str s) ++ r = '"' :: (escapeChars s.data ++ '"' :: r) := by
          rw [show printJson (.str s) = '"' :: (escapeChars s.data ++ ['"']) from rfl]
          simp only [List.cons_append, List.append_assoc, List.singleton_append,
            List.nil_append]
        have hlen : s.data.length + 1 ≤ f := by
          have heq : fuelFor (.str s) = s.data.length + 2 := rfl
          rw [heq] at hfuel
          omega
        rw [hpr, pv_step_str, parseStringRest_print s.data f r hlen]
        rfl
      | arr l =>
        cases l with
        | nil =>
          rw [show printJson (.arr []) ++ r = '[' :: ']' :: r from rfl]
          exact pv_step_arr_empty f r
        | cons x xs =>
          have hb : fuelItems (x :: xs) ≤ f := by
            have heq : fuelFor (.arr (x :: xs)) = 1 + fuelItems (x :: xs) := rfl
            rw [heq] at hfuel
            omega
          have hpr : printJson (.arr (x :: xs)) ++ r
              = '[' :: (printJson x ++ (printItemsRest xs ++ ']' :: r)) := by
            rw [show printJson (.arr (x :: xs))
                = '[' :: (printJson x ++ printItemsRest xs) ++ [']'] from rfl]
            simp only [List.cons_append, List.append_assoc, List.singleton_append,
              List.nil_append]
          rw [hpr]
          obtain ⟨c, cs1, hpx, hgh⟩ := printJson_head x
          have hsw : skipWs (printJson x ++ (printItemsRest xs ++ ']' :: r))
              = c :: (cs1 ++ (printItemsRest xs ++ ']' :: r)) := by
            rw [hpx, List.cons_append]
            exact skipWs_cons_of_not_ws _ (goodHead_not_ws hgh)
          have hback : c :: (cs1 ++ (printItemsRest xs ++ ']' :: r))
              = printJson x ++ (printItemsRest xs ++ ']' :: r) := by
            rw [hpx, List.cons_append]
          rw [pv_step_arr_items f _ c _ hsw (goodHead_ne_rbracket hgh), hback,
            ihi x xs r hb]
          rfl
      | obj l =>
        cases l with
        | nil =>
          rw [show printJson (.obj []) ++ r = '{' :: '}' :: r from rfl]
          exact pv_step_obj_empty f r
        | cons kv kvs =>
          obtain ⟨k, v⟩ := kv
          have hb : fuelFields ((k, v) :: kvs) ≤ f := by
            have heq : fuelFor (.obj ((k, v) :: kvs)) = 1 + fuelFields ((k, v) :: kvs) := rfl
            rw [heq] at hfuel
            omega
          have h1 : printJson (.obj ((k, v) :: kvs)) ++ r
              = '{' :: (printField (k, v) ++ (printFieldsRest kvs ++ '}' :: r)) := by
            rw [show printJson (.obj ((k, v) :: kvs))
                = '{' :: (printField (k, v) ++ printFieldsRest kvs) ++ ['}'] from rfl]
            simp only [List.cons_append, List.append_assoc, List.singleton_append,
              List.nil_append]
          have h2 : printField (k, v) ++ (printFieldsRest kvs ++ '}' :: r)
              = '"' :: (escapeChars k.data ++ '"' :: ':' :: ' ' :: printJson v
                  ++ (printFieldsRest kvs ++ '}' :: r)) := by
            rw [show printField (k, v)
                = '"' :: (escapeChars k.data ++ '"' :: ':' :: ' ' :: printJson v) from rfl]
            simp only [List.cons_append, List.append_assoc]
          rw [h1, h2, pv_step_obj_str f _, ← h2, ihf k v kvs r hb]
          rfl
    · -- parseItems on a printed item list
      intro x xs r hfuel
      simp only [fuelItems] at hfuel
      have hbx : fuelFor x ≤ f := by omega
      rw [pi_step f, ihv x (printItemsRest xs ++ ']' :: r) hbx (hnd_items xs r)]
      cases xs with
      | nil => rfl
      | cons y ys =>
        have hb2 : fuelItems (y :: ys) ≤ f := by
          simp only [fuelItems] at *
          omega
        show (parseItems f (skipWs
              (' ' :: ((printJson y ++ printItemsRest ys) ++ ']' :: r)))).map
            (fun (l, r3) => (x :: l, r3)) = some (x :: y :: ys, r)
        rw [skipWs_space, List.append_assoc, skipWs_print y _, ihi y ys r hb2]
        rfl
    · -- parseFields on a printed member list
      intro k v kvs r hfuel
      simp only [fuelFields] at hfuel
      have hklen : k.data.length + 1 ≤ f := by
        have : k.length = k.data.length := rfl
        omega
      have hbv : fuelFor v ≤ f := by omega
      rw [pf_step f]
      show (parseStringRest f ((escapeChars k.data ++ '"' :: ':' :: ' ' :: printJson v)
            ++ (printFieldsRest kvs ++ '}' :: r))).bind
          (fun (k', r') =>
            match skipWs r' with
            | ':' :: r2 =>
              (parseValue f (skipWs r2)).bind fun (v', r3) =>
                match skipWs r3 with
                | ',' :: r4 => (parseFields f (skipWs r4)).map fun (l, r5) => ((⟨k'⟩, v') :: l, r5)
                | '}' :: r4 => some ([(⟨k'⟩, v')], r4)
                | _ => none
            | _ => none)
        = some ((k, v) :: kvs, r)
      rw [List.append_assoc]
      simp only [List.cons_append]
      rw [parseStringRest_print k.data f _ hklen]
      show (parseValue f (skipWs (' ' :: (printJson v ++ (printFieldsRest kvs ++ '}' :: r))))).bind
          (fun (v', r3) =>
            match skipWs r3 with
            | ',' :: r4 => (parseFields f (skipWs r4)).map fun (l, r5) => ((⟨k.data⟩, v') :: l, r5)
            | '}' :: r4 => some ([(⟨k.data⟩, v')], r4)
            | _ => none)
        = some ((k, v) :: kvs, r)
      rw [skipWs_space, skipWs_print v _,
        ihv v (printFieldsRest kvs ++ '}' :: r) hbv (hnd_fields kvs r)]
      cases kvs with
      | nil => rfl
      | cons kv2 kvs2 =>
        obtain ⟨k2, v2⟩ := kv2
        have hb3 : fuelFields ((k2, v2) :: kvs2) ≤ f := by
          simp only [fuelFields] at *
          omega
        show (parseFields f (skipWs (' ' :: ((printField (k2, v2) ++ printFieldsRest kvs2)
              ++ '}' :: r)))).map
            (fun (l, r5) => ((⟨k.data⟩, v) :: l, r5)) = some ((k, v) :: (k2, v2) :: kvs2, r)
        rw [skipWs_space, List.append_assoc, skipWs_printField (k2, v2) _,
          ihf k2 v2 kvs2 r hb3]
        rfl

/-- `json.loads` is a left inverse of `json.dumps`: deserialising a
serialised payload reproduces it exactly (the round-trip property the
store's read path relies on). -/
theorem loads_dumps (j : Json) : loads (dumps j) = some j := by
  have hfuel : fuelFor j ≤ (printJson j).length + 1 := by
    have := fuelFor_le_len j
    omega
  have h := (parse_print_main ((printJson j).length + 1)).1 j [] hfuel trivial
  rw [List.append_nil] at h
  show (match parseValue ((dumps j).data.length + 1) (dumps j).data with
        | some (j', r) => if skipWs r = [] then some j' else none
        | none => none) = some j
  rw [show (dumps j).data = printJson j from rfl, h]
  rfl

theorem printJson_injective {a b : Json} (h : printJson a = printJson b) : a = b := by
  have ha := loads_dumps a
  have hb := loads_dumps b
  rw [show dumps a = dumps b from congrArg String.mk h, hb] at ha
  exact (Option.some.inj ha).symm

instance : DecidableEq Json := fun a b =>
  decidable_of_iff (printJson a = printJson b) ⟨printJson_injective, fun h => by rw [h]⟩

/-! ## Python exceptions -/

/-- The exception classes observable in this code base.  `dbError` is
`DatabaseError` (app/core/exceptions.py), `apiError` is
`FortiGateAPIError`; the rest are Python built-ins.  An
`except SomeClass` handler is a match on the constructor;
`except Exception` catches every constructor. -/
inductive PyErr where
  | attributeError (msg : String)
  | typeError (msg : String)
  | valueError (msg : String)
  | apiError (msg : String)
  | dbError (msg : String)
  deriving Repr, DecidableEq

/-- Python `str(e)` on an exception: its message. -/
def PyErr.msg : PyErr → String
  | .attributeError m => m
  | .typeError m => m
  | .valueError m => m
  | .apiError m => m
  | .dbError m => m

/-! ## Query construction and escaping (app/database/clickhouse_handler.py)

`insert_configs` (lines 350-371) and `get_config_count` (lines 491-507)
pass every interpolated filter value through a local `escape_string`
helper that doubles single quotes; `get_config_by_id` (lines 558-574)
interpolates the id verbatim inside `toUUID('…')`. -/

/-- `escape_string` from `insert_configs` / `get_config_count`: replace
every `'` with `''` (character-list level). -/
def escapeQuote : List Char → List Char
  | [] => []
  | c :: cs => if c = '\'' then '\'' :: '\'' :: escapeQuote cs else c :: escapeQuote cs

/-- `escape_string(value)` as in the source: `value.replace("'", "''")`. -/
def escape_string (value : String) : String := ⟨escapeQuote value.data⟩

/-- How the ClickHouse server reads the body of a single-quoted literal:
a doubled quote denotes one quote character.  Used to state that escaping
is lossless. -/
def unescapeQuote : List Char → List Char
  | [] => []
  | [c] => if c = '\'' then [] else [c]
  | c :: c2 :: cs2 =>
    if c = '\'' then
      if c2 = '\'' then '\'' :: unescapeQuote cs2 else unescapeQuote (c2 :: cs2)
    else c :: unescapeQuote (c2 :: cs2)

/-- The content of a single-quoted literal is safe against quote-breaking
injection when every `'` occurring in it is part of a doubled `''`: the
literal cannot be terminated early by the embedded value. -/
def literalSafe : List Char → Bool
  | [] => true
  | [c] => decide (c ≠ '\'')
  | c :: c2 :: cs2 =>
    if c = '\'' then
      if c2 = '\'' then literalSafe cs2 else false
    else literalSafe (c2 :: cs2)

/-- The id-recovery query built after the insert in `insert_configs`
(lines 363-371); whitespace of the Python triple-quoted string is
collapsed, the interpolation structure is verbatim. -/
def insertIdQuery (vendor_type device_id config_type : String) : String :=
  "SELECT id FROM firewall_configs WHERE vendor_type = '" ++ escape_string vendor_type
    ++ "' AND device_id = '" ++ escape_string device_id
    ++ "' AND config_type = '" ++ escape_string config_type
    ++ "' ORDER BY created_at DESC, retrieved_at DESC LIMIT 1"

/-- The string contents interpolated into `insertIdQuery`'s predicate
literals, in order of appearance. -/
def insertIdQueryLiterals (vendor_type device_id config_type : String) : List (List Char) :=
  [(escape_string vendor_type).data, (escape_string device_id).data,
   (escape_string config_type).data]

/-- The WHERE conditions built by `get_config_count` (lines 496-507):
one per truthy filter, each value escaped. -/
def countQueryConditions (vendor_type device_id config_type : Option String) : List String :=
  (match vendor_type with
   | some v => if v = "" then [] else ["vendor_type = '" ++ escape_string v ++ "'"]
   | none => []) ++
  (match device_id with
   | some v => if v = "" then [] else ["device_id = '" ++ escape_string v ++ "'"]
   | none => []) ++
  (match config_type with
   | some v => if v = "" then [] else ["config_type = '" ++ escape_string v ++ "'"]
   | none => [])

/-- The count query built by `get_config_count`. -/
def countQuery (vendor_type device_id config_type : Option String) : String :=
  let conditions := countQueryConditions vendor_type device_id config_type
  if conditions.isEmpty then "SELECT COUNT(*) FROM firewall_configs"
  else "SELECT COUNT(*) FROM firewall_configs WHERE " ++ String.intercalate " AND " conditions

/-- The string contents interpolated into `countQuery`'s predicate
literals, in order of appearance. -/
def countQueryLiterals (vendor_type device_id config_type : Option String) : List (List Char) :=
  (match vendor_type with
   | some v => if v = "" then [] else [(escape_string v).data]
   | none => []) ++
  (match device_id with
   | some v => if v = "" then [] else [(escape_string v).data]
   | none => []) ++
  (match config_type with
   | some v => if v = "" then [] else [(escape_string v).data]
   | none => [])

/-- The point-lookup query built by `get_config_by_id` (lines 558-574):
the column list, then `WHERE id = toUUID('{config_id}') LIMIT 1` with the
id interpolated verbatim — no `escape_string` call on this path. -/
def getConfigByIdQuery (config_id : String) : String :=
  "SELECT id, vendor_type, device_id, device_name, config_type, config_json, metadata, version, created_at, updated_at, retrieved_at FROM firewall_configs WHERE id = toUUID('"
    ++ config_id ++ "') LIMIT 1"

/-- The string content interpolated into `getConfigByIdQuery`'s single
predicate literal: the raw id. -/
def getConfigByIdQueryLiterals (config_id : String) : List (List Char) :=
  [config_id.data]

theorem literalSafe_escapeQuote : ∀ cs, literalSafe (escapeQuote cs) = true := by
  intro cs
  induction cs with
  | nil => rfl
  | cons c cs ih =>
    by_cases hc : c = '\''
    · subst hc
      simp only [escapeQuote, if_pos]
      rw [show literalSafe ('\'' :: '\'' :: escapeQuote cs) = literalSafe (escapeQuote cs) from rfl]
      exact ih
    · simp only [escapeQuote, if_neg hc]
      cases hes : escapeQuote cs with
      | nil => simp [literalSafe, hc]
      | cons e es =>
        rw [show literalSafe (c :: e :: es) = literalSafe (e :: es) from by
          simp [literalSafe, hc]]
        rw [← hes]
        exact ih

theorem unescapeQuote_escapeQuote : ∀ cs, unescapeQuote (escapeQuote cs) = cs := by
  intro cs
  induction cs with
  | nil => rfl
  | cons c cs ih =>
    by_cases hc : c = '\''
    · subst hc
      simp only [escapeQuote, if_pos]
      rw [show unescapeQuote ('\'' :: '\'' :: escapeQuote cs) = '\'' :: unescapeQuote (escapeQuote cs) from rfl]
      rw [ih]
    · simp only [escapeQuote, if_neg hc]
      cases hes : escapeQuote cs with
      | nil =>
        have hcs : cs = [] := by
          cases cs with
          | nil => rfl
          | cons d ds =>
            by_cases hd : d = '\''
            · simp [escapeQuote, hd] at hes
            · simp [escapeQuote, hd] at hes
        subst hcs
        simp [escapeQuote, unescapeQuote, hc]
      | cons e es =>
        rw [show unescapeQuote (c :: e :: es) = c :: unescapeQuote (e :: es) from by
          simp [unescapeQuote, hc]]
        rw [← hes, ih]

/-! ## The Config Store (app/database/clickhouse_handler.py)

The ClickHouse server is modelled relationally: the table
`firewall_configs` is a list of rows, `id` is the server-generated UUID
(`generateUUIDv4()`), `created_at` is the server clock (`now()`,
modelled as a monotone tick so that `ORDER BY created_at DESC` is
meaningful).  Failures raised by the `clickhouse_connect` driver — all
subclasses of `ClickHouseError` — are injected through explicit
parameters. -/

/-- One row of `firewall_configs` (see `TABLE_SCHEMA`). -/
structure ChRow where
  id : String
  vendor_type : String
  device_id : String
  device_name : String
  config_type : String
  config_json : String
  metadata : String
  version : String
  created_at : Nat
  retrieved_at : Nat
  deriving Repr, DecidableEq

/-- Python `x or default` on an optional string: `None` and `""` are
falsy. -/
def orDefault (s : Option String) (dflt : String) : String :=
  match s with
  | some v => if v = "" then dflt else v
  | none => dflt

/-- Python `metadata or {}` on an optional parsed-JSON value. -/
def orEmptyObj (m : Option Json) : Json :=
  match m with
  | some j => if j.truthy then j else .obj []
  | none => .obj []

/-- `ORDER BY created_at DESC, retrieved_at DESC LIMIT 1` over a row
list; ties beyond the two sort keys are broken arbitrarily by the server
(here: the later row in insertion order wins). -/
def selectLatest (rows : List ChRow) : Option ChRow :=
  rows.foldl
    (fun acc r =>
      match acc with
      | none => some r
      | some b =>
        if b.created_at < r.created_at ∨
            (b.created_at = r.created_at ∧ b.retrieved_at ≤ r.retrieved_at) then some r
        else some b)
    none

/-- The row filter of the post-insert id-recovery query. -/
def rowKeyMatches (r : ChRow) (vendor_type device_id config_type : String) : Bool :=
  r.vendor_type == vendor_type && r.device_id == device_id && r.config_type == config_type

/-- Executing `insertIdQuery`: the id of the most recent row matching the
three (escaped, hence compared verbatim — `unescapeQuote_escapeQuote`)
key values. -/
def insertIdLookup (db : List ChRow) (vendor_type device_id config_type : String) :
    Option String :=
  (selectLatest (db.filter (fun r => rowKeyMatches r vendor_type device_id config_type))).map
    (fun r => r.id)

/-- `ClickHouseHandler.insert_configs` (lines 263-396).  External inputs:
`genId` — the UUID the server generates for the new row; `now` — the
`datetime.now()` tick; `insertFail` — a driver error raised by
`client.insert`, wrapped into `DatabaseError` by the handler's
`except` clauses; `idQueryFail` — a failure of the id-recovery query,
swallowed (insert succeeded, id lost).  Returns the new table state and
the `(inserted_count, config_id)` pair of the source. -/
def ClickHouseHandler.insert_configs (db : List ChRow) (genId : String) (now : Nat)
    (insertFail : Option String) (idQueryFail : Bool)
    (configs : List Json) (vendor_type device_id : String)
    (device_name : Option String) (config_type : String)
    (metadata : Option Json) (version : Option String) :
    Except String (List ChRow × Nat × Option String) :=
  match configs with
  | [] => .ok (db, 0, none)
  | _ =>
    match insertFail with
    | some m => .error ("Failed to insert configurations: " ++ m)
    | none =>
      let configs_json :=
        match configs with
        | [c] => dumps c
        | _ => dumps (.arr configs)
      let row : ChRow :=
        { id := genId
          vendor_type := vendor_type
          device_id := device_id
          device_name := orDefault device_name device_id
          config_type := config_type
          config_json := configs_json
          metadata := dumps (orEmptyObj metadata)
          version := version.getD ""
          created_at := now
          retrieved_at := now }
      let db' := db ++ [row]
      if idQueryFail then .ok (db', 1, none)
      else
        match insertIdLookup db' vendor_type device_id config_type with
        | some cid => .ok (db', 1, some cid)
        | none => .ok (db', 1, none)

/-- One of `get_config_count`'s optional filters against a row column:
only a truthy filter value adds a condition. -/
def filterMatches (field : String) (flt : Option String) : Bool :=
  match flt with
  | some v => if v = "" then true else field == v
  | none => true

/-- `ClickHouseHandler.get_config_count` (lines 470-517).  `queryFail`
models the driver raising `ClickHouseError` — the only exception its
`try` block catches — in which case the method logs a warning and
returns `0`. -/
def ClickHouseHandler.get_config_count (db : List ChRow) (queryFail : Bool)
    (vendor_type device_id config_type : Option String) : Nat :=
  if queryFail then 0
  else
    (db.filter (fun r =>
      filterMatches r.vendor_type vendor_type && filterMatches r.device_id device_id &&
        filterMatches r.config_type config_type)).length

/-- `ClickHouseHandler.get_policy_count` (lines 519-526): the count with
the fixed `config_type="policy"` filter. -/
def ClickHouseHandler.get_policy_count (db : List ChRow) (queryFail : Bool) : Nat :=
  ClickHouseHandler.get_config_count db queryFail none none (some "policy")

/-- A column value after the read-path deserialisation: parsed JSON on
success, the raw stored string when `json.loads` fails. -/
inductive FieldVal where
  | raw (s : String)
  | parsed (j : Json)
  deriving Repr, DecidableEq

/-- The record returned by `ClickHouseHandler.get_config_by_id`. -/
structure ConfigRecord where
  id : String
  vendor_type : String
  device_id : String
  device_name : String
  config_type : String
  config_json : FieldVal
  metadata : FieldVal
  version : String
  created_at : Nat
  retrieved_at : Nat
  deriving Repr, DecidableEq

/-- The read path of `get_config_by_id` for `config_json` / `metadata`
(lines 590-629): a falsy (empty) string is left alone; otherwise
`json.loads` is attempted and on `JSONDecodeError` the raw string is
kept. -/
def parseStoredField (s : String) : FieldVal :=
  if s = "" then .raw s
  else
    match loads s with
    | some j => .parsed j
    | none => .raw s

/-- `ClickHouseHandler.get_config_by_id` (lines 528-641).  `uuidValid`
models acceptance by the CPython `uuid.UUID` constructor (stdlib);
`queryFail` a driver error from the point query, wrapped into
`DatabaseError`.  Validation runs before the query is built, so an
invalid id raises `ValueError` with no query issued. -/
def ClickHouseHandler.get_config_by_id (uuidValid : String → Bool)
    (db : List ChRow) (queryFail : Option String) (config_id : String) :
    Except PyErr (Option ConfigRecord) :=
  if ¬uuidValid config_id then
    .error (.valueError ("Invalid UUID format: " ++ config_id))
  else
    match queryFail with
    | some m =>
      .error (.dbError ("Failed to retrieve configuration by ID " ++ config_id ++ ": " ++ m))
    | none =>
      match db.find? (fun r => r.id == config_id) with
      | none => .ok none
      | some row =>
        .ok (some
          { id := row.id
            vendor_type := row.vendor_type
            device_id := row.device_id
            device_name := row.device_name
            config_type := row.config_type
            config_json := parseStoredField row.config_json
            metadata := parseStoredField row.metadata
            version := row.version
            created_at := row.created_at
            retrieved_at := row.retrieved_at })

/-! ## DataProcessor (app/utils/data_processor.py) -/

/-- Python `str(x)` on a parsed-JSON value.  For scalars this is exact
(`str`, `int`, `bool`, `None` renderings); for containers Python's
`repr` differs from JSON in its quoting, but every use in
`_format_interfaces` treats the result as an opaque display string, so
the JSON rendering stands in for it.  `str` never raises. -/
def pyStr (j : Json) : String :=
  match j with
  | .str s => s
  | .bool true => "True"
  | .bool false => "False"
  | .null => "None"
  | .num n => ⟨intChars n⟩
  | _ => dumps j

/-- Python `len(x)`: defined for lists, strings and dicts, `TypeError`
otherwise. -/
def pyLen : Json → Except PyErr Nat
  | .arr l => .ok l.length
  | .str s => .ok s.length
  | .obj l => .ok l.length
  | _ => .error (.typeError "object has no len()")

/-- Python `x[:5]` followed by iteration, as in `format_summary`'s
`for policy in policies[:5]`: a list yields its first items, a string
yields its first characters (each a one-character string), a dict is
unhashable-slice `TypeError`.  (Only reached when `len(x) > 0`.) -/
def pySlice5 : Json → Except PyErr (List Json)
  | .arr l => .ok (l.take 5)
  | .str s => .ok ((s.data.take 5).map (fun c => Json.str ⟨[c]⟩))
  | .obj _ => .error (.typeError "unhashable type: slice")
  | _ => .error (.typeError "not subscriptable")

/-- A Python `for` loop that builds a list and lets the first exception
propagate (the shape of the loops in `_format_interfaces` and
`format_summary`). -/
def exceptMapM (f : α → Except ε β) : List α → Except ε (List β)
  | [] => .ok []
  | a :: as => do
    let b ← f a
    let bs ← exceptMapM f as
    .ok (b :: bs)

/-- `DataProcessor._format_interfaces` (lines 127-146), translated branch
for branch.  A list element that is a dict with a non-string `name` value
makes the final `", ".join(names)` raise `TypeError`. -/
def DataProcessor.formatInterfaces (v : Json) : Except PyErr Json :=
  match v with
  | .arr items =>
    if items.isEmpty then .ok (.str "N/A")
    else do
      let names ← exceptMapM (fun it =>
        match it with
        | .obj fs =>
          match Json.lookupField fs "name" with
          | some (.str s) => Except.ok s
          | some _ => Except.error (.typeError "sequence item: expected str instance")
          | none => Except.ok (pyStr it)
        | _ => Except.ok (pyStr it)) items
      .ok (.str (String.intercalate ", " names))
  | .obj fs => .ok ((Json.lookupField fs "name").getD (.str "N/A"))
  | v => .ok (if v.truthy then .str (pyStr v) else .str "N/A")

/-- `DataProcessor.format_summary` (lines 88-125), translated branch for
branch.  `policy.get(...)` on a non-dict item raises `AttributeError`;
`len` / the `[:5]` slice raise `TypeError` on unsupported payloads. -/
def DataProcessor.format_summary (policies : Json) : Except PyErr Json := do
  let total ← pyLen policies
  if total = 0 then
    return .obj [("total_policies", .num (total : Int)), ("sample_policies", .arr [])]
  else do
    let items ← pySlice5 policies
    let entries ← exceptMapM (fun policy =>
      match policy with
      | .obj fs => do
        let si ← DataProcessor.formatInterfaces ((Json.lookupField fs "srcintf").getD (.arr []))
        let di ← DataProcessor.formatInterfaces ((Json.lookupField fs "dstintf").getD (.arr []))
        Except.ok (Json.obj
          [("name", (Json.lookupField fs "name").getD (.str "Unnamed")),
           ("policy_id", (Json.lookupField fs "policyid").getD (.str "N/A")),
           ("source_interface", si),
           ("destination_interface", di),
           ("action", (Json.lookupField fs "action").getD (.str "N/A"))])
      | _ => Except.error (.attributeError "object has no attribute 'get'")) items
    Except.ok (.obj [("total_policies", .num (total : Int)), ("sample_policies", .arr entries)])

/-! ## The shallow policy count (policy_service.py lines 166-178) -/

/-- The `policies_count` computation of `fetch_and_store_policies`,
translated branch for branch: a list counts its length; a dict with a
`"policies"` list counts that list; otherwise a dict with a `"policy"`
key counts that value's length if it is a list and 1 if not; any other
dict counts 1; non-list non-dict payloads leave the initial 0. -/
def countPolicies (raw : Json) : Nat :=
  match raw with
  | .arr l => l.length
  | .obj fs =>
    match Json.lookupField fs "policies" with
    | some (.arr l) => l.length
    | _ =>
      match Json.lookupField fs "policy" with
      | some (.arr l) => l.length
      | some _ => 1
      | none => 1
  | _ => 0

/-- "Holds an array": the view used to phrase the spec's counting rule. -/
def Json.asArray : Json → Option (List Json)
  | .arr l => some l
  | _ => none

/-- Modelled from the spec: the shallow-inspection rule of §3, clause by
clause in the spec's order — "if array, its length; if object with a
`policies` array key, that array's length; if object with a singular
`policy` key, 1 or its length if itself an array; otherwise 1" (for
objects). -/
def specPoliciesCount (payload : Json) : Nat :=
  match payload with
  | .arr l => l.length
  | .obj fs =>
    match (Json.lookupField fs "policies").bind Json.asArray with
    | some l => l.length
    | none =>
      match Json.lookupField fs "policy" with
      | some p =>
        match Json.asArray p with
        | some l => l.length
        | none => 1
      | none => 1
  | _ => 0

/-! ## The Ingestion Orchestrator (app/services/policy_service.py)

`PolicyService.fetch_and_store_policies` is embedded as a pure function
over an environment recording the outcome of each collaborator call.
The database methods `ensure_database_exists`, `create_table` and
`insert_configs` raise only `DatabaseError` (every path of their bodies
wraps driver errors — `clickhouse_handler.py` lines 235-245, 258-261,
387-396), so their outcomes are typed `Except String _` carrying the
`DatabaseError` message; `get_policy_count` never raises (it delegates
to `get_config_count`, which returns 0 on failure), so its outcome is a
plain number.  The fetch and sample-load calls can raise anything and
are typed `Except PyErr Json`. -/

/-- A call into the Config Store, for tracing which store operations an
invocation performs. -/
inductive StoreOp where
  | ensureDatabase
  | createTable
  | insertConfigs
  | countQuery
  | getQuery
  deriving Repr, DecidableEq

/-- The result dict assembled by `fetch_and_store_policies`
(lines 68-77). -/
structure IngestResult where
  success : Bool
  policies_count : Nat
  db_stored : Bool
  db_count : Nat
  config_id : Option String
  summary : Option Json
  error : Option String
  data_source : String
  deriving Repr, DecidableEq

/-- Outcomes of the collaborator calls made by one
`fetch_and_store_policies` invocation. -/
structure PolicyServiceEnv where
  /-- A live client was resolved: `firewall_config` was passed, or
  `self.fortigate_client` is set (lines 84-95). -/
  clientResolved : Bool
  /-- Outcome of `client_to_use.fetch_raw_config()` (line 119). -/
  fetch_raw_config : Except PyErr Json
  /-- Outcome of `self.sample_data_loader.is_sample_data_available(f)`. -/
  is_sample_data_available : String → Bool
  /-- Outcome of `self.sample_data_loader.load_full_json(f)` (line 139). -/
  load_full_json : String → Except PyErr Json
  /-- `self.clickhouse_handler` is set. -/
  handlerPresent : Bool
  /-- Outcome of `ensure_database_exists()`; `.error m` is
  `DatabaseError(m)`. -/
  ensure_database_exists : Except String Unit
  /-- Outcome of `create_table()`. -/
  create_table : Except String Unit
  /-- Outcome of `insert_configs(...)`: `(inserted_count, config_id)`. -/
  insert_configs_result : Except String (Nat × Option String)
  /-- Outcome of `get_policy_count()` (line 217), which never raises. -/
  get_policy_count_result : Nat

/-- The candidate sample files, in the fixed priority order of line 134. -/
def sample_files : List String := ["fortinet-config.json", "sample_policies.json"]

/-- The fallback loop (lines 135-144): the first available candidate
whose load succeeds supplies the payload; a load failure logs and moves
on.  Python cannot distinguish a successfully loaded JSON `null` from no
payload at all — both leave `raw_json_data is None` true at line 146 —
and neither can this function (`Json.null` plays both roles). -/
def tryLoadSamples (env : PolicyServiceEnv) : List String → Json
  | [] => .null
  | f :: rest =>
    if env.is_sample_data_available f then
      match env.load_full_json f with
      | .ok j => j
      | .error _ => tryLoadSamples env rest
    else tryLoadSamples env rest

/-- The terminal error message of lines 147-151. -/
def noSampleMsg : String :=
  "No API configured and no valid sample data found. Please configure FGT_API_TOKEN or add sample data to sampledata/fortinet-config.json or sampledata/sample_policies.json"

/-- Outcome of the fetch-or-fallback part of the pipeline. -/
inductive SourceOutcome where
  | failed (errMsg : String)
  | payload (raw : Json) (data_source : String)
  deriving Repr, DecidableEq

/-- Lines 112-164: the fetch phase (attempted only when sample data is
not forced and a client is resolved; any exception sets the fallback
flag) and the fallback phase (entered when sample data is forced, no
client is resolved, or the fetch failed; terminal error when no
candidate loads). -/
def sourcePhase (env : PolicyServiceEnv) (use_sample_data : Bool) : SourceOutcome :=
  let fetched : Option Json :=
    if ¬use_sample_data ∧ env.clientResolved then
      match env.fetch_raw_config with
      | .ok j => some j
      | .error _ => none
    else none
  match fetched with
  | some j => .payload j "api"
  | none =>
    let raw := tryLoadSamples env sample_files
    if raw = .null then .failed noSampleMsg
    else .payload raw "sample"

/-- Lines 226-231: the summary is formatted from the list payload, from
a dict payload's `"policies"` value, or is the generic placeholder. -/
def summaryStep (raw : Json) : Except PyErr Json :=
  match raw with
  | .arr _ => DataProcessor.format_summary raw
  | .obj fs =>
    match Json.lookupField fs "policies" with
    | some v => DataProcessor.format_summary v
    | none => .ok (.obj [("message", .str "Full configuration stored"), ("type", .str (Json.obj fs).typeName)])
  | _ => .ok (.obj [("message", .str "Full configuration stored"), ("type", .str raw.typeName)])

/-- What the persist phase (lines 193-223) contributes to the result:
the `db_stored` / `db_count` / `config_id` fields, a recorded
`DatabaseError` if one occurred, and the store calls performed. -/
structure StorePhaseResult where
  db_stored : Bool
  db_count : Nat
  config_id : Option String
  error : Option String
  calls : List StoreOp
  deriving Repr, DecidableEq

/-- Lines 193-223: ensure database, create table, insert, then read the
total count; a `DatabaseError` anywhere is caught at line 220 and
recorded, and execution continues. -/
def storePhase (env : PolicyServiceEnv) (store_in_db : Bool) : StorePhaseResult :=
  if store_in_db ∧ env.handlerPresent then
    match env.ensure_database_exists with
    | .error m =>
      { db_stored := false, db_count := 0, config_id := none,
        error := some ("Database operation failed: " ++ m), calls := [.ensureDatabase] }
    | .ok _ =>
      match env.create_table with
      | .error m =>
        { db_stored := false, db_count := 0, config_id := none,
          error := some ("Database operation failed: " ++ m),
          calls := [.ensureDatabase, .createTable] }
      | .ok _ =>
        match env.insert_configs_result with
        | .error m =>
          { db_stored := false, db_count := 0, config_id := none,
            error := some ("Database operation failed: " ++ m),
            calls := [.ensureDatabase, .createTable, .insertConfigs] }
        | .ok (cnt, cid) =>
          { db_stored := true, db_count := cnt, config_id := cid, error := none,
            calls := [.ensureDatabase, .createTable, .insertConfigs, .countQuery] }
  else
    { db_stored := false, db_count := 0, config_id := none, error := none, calls := [] }

deriving instance DecidableEq for Except

/-- The observable outcome of one `fetch_and_store_policies` call: the
returned result dict, or the exception the outer handlers re-raise
(lines 238-245), together with the store calls performed. -/
structure IngestOutcome where
  outcome : Except PyErr IngestResult
  storeCalls : List StoreOp
  deriving Repr, DecidableEq

/-- `PolicyService.fetch_and_store_policies` (lines 41-245), composed
from `sourcePhase`, `countPolicies`, the truthiness early return of
lines 181-184, `storePhase` and `summaryStep`.  The outer
`except` handlers set `result["error"]` and re-raise, so an escaped
exception is the call's outcome. -/
def PolicyService.fetch_and_store_policies (env : PolicyServiceEnv)
    (store_in_db use_sample_data : Bool) : IngestOutcome :=
  match sourcePhase env use_sample_data with
  | .failed msg =>
    { outcome := .ok
        { success := false, policies_count := 0, db_stored := false, db_count := 0,
          config_id := none, summary := none, error := some msg, data_source := "api" },
      storeCalls := [] }
  | .payload raw ds =>
    let pc := countPolicies raw
    if ¬raw.truthy then
      { outcome := .ok
          { success := true, policies_count := pc, db_stored := false, db_count := 0,
            config_id := none, summary := none, error := none, data_source := ds },
        storeCalls := [] }
    else
      let sp := storePhase env store_in_db
      match summaryStep raw with
      | .error e => { outcome := .error e, storeCalls := sp.calls }
      | .ok s =>
        { outcome := .ok
            { success := true, policies_count := pc, db_stored := sp.db_stored,
              db_count := sp.db_count, config_id := sp.config_id, summary := some s,
              error := sp.error, data_source := ds },
          storeCalls := sp.calls }

/-! ## The two calls to methods that do not exist

`fetch_and_store_policies` obtains its payload through exactly two
collaborator methods, and neither is defined. -/

/-- The call `client_to_use.fetch_raw_config()` at policy_service.py
line 119.  `FortiGateClient` (app/clients/fortigate_client.py) defines
`fetch_policies`, `_create_session`, `_validate_response`,
`_parse_response`, `_extract_policies` and `close` — there is no
`fetch_raw_config` — so in CPython the attribute lookup raises
`AttributeError` before any network activity. -/
def FortiGateClient.fetch_raw_config : Except PyErr Json :=
  .error (.attributeError "'FortiGateClient' object has no attribute 'fetch_raw_config'")

/-- The call `self.sample_data_loader.load_full_json(filename)` at
policy_service.py line 139.  `SampleDataLoader`
(app/utils/sample_data_loader.py) defines `load_sample_policies`,
`load_full_config`, `get_available_samples` and
`is_sample_data_available` — there is no `load_full_json` — so the call
raises `AttributeError` for every filename, before touching the
filesystem. -/
def SampleDataLoader.load_full_json (_filename : String) : Except PyErr Json :=
  .error (.attributeError "'SampleDataLoader' object has no attribute 'load_full_json'")

/-! ## The service-level lookup (policy_service.py lines 247-301) -/

/-- The result dict of `PolicyService.get_config_by_id`. -/
structure LookupResult where
  success : Bool
  config : Option ConfigRecord
  error : Option String
  deriving Repr, DecidableEq

/-- Collaborator outcomes for one `PolicyService.get_config_by_id`
call. -/
structure LookupEnv where
  handlerPresent : Bool
  ensure_database_exists : Except String Unit
  /-- Models acceptance by CPython's `uuid.UUID` constructor. -/
  uuidValid : String → Bool
  db : List ChRow
  queryFail : Option String

/-- `PolicyService.get_config_by_id`: no handler is a plain error
result; `ensure_database_exists` runs first and its `DatabaseError` is
re-raised (line 294); then the handler's `get_config_by_id` validates
the id and queries, its `ValueError` / `DatabaseError` re-raised
(lines 290-297); a missing record is a non-exceptional error result.
The second component is the trace of store calls performed. -/
def PolicyService.get_config_by_id (env : LookupEnv) (config_id : String) :
    Except PyErr LookupResult × List StoreOp :=
  if ¬env.handlerPresent then
    (.ok { success := false, config := none,
           error := some "ClickHouse handler not configured" }, [])
  else
    match env.ensure_database_exists with
    | .error m => (.error (.dbError m), [.ensureDatabase])
    | .ok _ =>
      let trace := [StoreOp.ensureDatabase]
        ++ (if env.uuidValid config_id then [StoreOp.getQuery] else [])
      match ClickHouseHandler.get_config_by_id env.uuidValid env.db env.queryFail config_id with
      | .error e => (.error e, trace)
      | .ok none =>
        (.ok { success := false, config := none,
               error := some ("Configuration with ID " ++ config_id ++ " not found") }, trace)
      | .ok (some record) =>
        (.ok { success := true, config := some record, error := none }, trace)

/-! ## When summary formatting cannot raise

`format_summary` raises `AttributeError` when a listed policy item is
not a dict, and `TypeError` when the policies value has no length, is a
dict that gets sliced, or lists an interface object whose `name` value
is not a string.  The predicates below carve out the payloads on which
it is total. -/

/-- `_format_interfaces` cannot raise on this value: it is not a list,
or none of its object elements maps `"name"` to a non-string. -/
def interfaceSafe : Json → Bool
  | .arr items =>
    items.all (fun it =>
      match it with
      | .obj fs =>
        match Json.lookupField fs "name" with
        | some (.str _) => true
        | some _ => false
        | none => true
      | _ => true)
  | _ => true

/-- A listed policy item on which the summary loop cannot raise: a dict
whose interface fields (defaulting to `[]`) are interface-safe. -/
def policyItemSafe : Json → Bool
  | .obj fs =>
    interfaceSafe ((Json.lookupField fs "srcintf").getD (.arr []))
      && interfaceSafe ((Json.lookupField fs "dstintf").getD (.arr []))
  | _ => false

/-- `format_summary` cannot raise on this policies value: a list whose
first five items are safe, or an empty string/dict (length 0 short
circuit). -/
def policiesValSafe : Json → Bool
  | .arr l => (l.take 5).all policyItemSafe
  | .str s => s.length == 0
  | .obj l => l.isEmpty
  | _ => false

/-- `summaryStep` cannot raise on this payload: a safe list, a dict
whose `"policies"` value (if any) is safe, or any other payload (generic
summary). -/
def summarySafe (raw : Json) : Bool :=
  match raw with
  | .arr _ => policiesValSafe raw
  | .obj fs =>
    match Json.lookupField fs "policies" with
    | some v => policiesValSafe v
    | none => true
  | _ => true

theorem except_ok_bind {ε α β : Type} (a : α) (f : α → Except ε β) :
    (Except.ok a >>= f : Except ε β) = f a := rfl

theorem formatInterfaces_ok {v : Json} (h : interfaceSafe v = true) :
    ∃ s, DataProcessor.formatInterfaces v = .ok s := by
  cases v with
  | arr items =>
    by_cases he : items.isEmpty
    · exact ⟨.str "N/A", by simp [DataProcessor.formatInterfaces, he]⟩
    · simp only [interfaceSafe, List.all_eq_true] at h
      have hmap : ∃ ns, exceptMapM (fun it =>
          match it with
          | Json.obj fs =>
            match Json.lookupField fs "name" with
            | some (.str s) => Except.ok s
            | some _ => Except.error (PyErr.typeError "sequence item: expected str instance")
            | none => Except.ok (pyStr it)
          | _ => Except.ok (pyStr it)) items = Except.ok ns := by
        clear he
        induction items with
        | nil => exact ⟨[], rfl⟩
        | cons it its ih =>
          obtain ⟨ns, hns⟩ := ih (fun x hx => h x (List.mem_cons_of_mem it hx))
          have hit := h it (List.mem_cons_self it its)
          cases it with
          | obj fs =>
            cases hlk : Json.lookupField fs "name" with
            | none => exact ⟨pyStr (.obj fs) :: ns, by simp [exceptMapM, hlk, hns, except_ok_bind]⟩
            | some nv =>
              cases nv with
              | str s => exact ⟨s :: ns, by simp [exceptMapM, hlk, hns, except_ok_bind]⟩
              | null => simp [hlk] at hit
              | bool b => simp [hlk] at hit
              | num n => simp [hlk] at hit
              | arr l => simp [hlk] at hit
              | obj l => simp [hlk] at hit
          | null => exact ⟨pyStr .null :: ns, by simp [exceptMapM, hns, except_ok_bind]⟩
          | bool b => exact ⟨pyStr (.bool b) :: ns, by simp [exceptMapM, hns, except_ok_bind]⟩
          | num n => exact ⟨pyStr (.num n) :: ns, by simp [exceptMapM, hns, except_ok_bind]⟩
          | str s => exact ⟨pyStr (.str s) :: ns, by simp [exceptMapM, hns, except_ok_bind]⟩
          | arr l => exact ⟨pyStr (.arr l) :: ns, by simp [exceptMapM, hns, except_ok_bind]⟩
      obtain ⟨ns, hns⟩ := hmap
      exact ⟨.str (String.intercalate ", " ns),
        by simp [DataProcessor.formatInterfaces, he, hns, except_ok_bind]⟩
  | obj fs => exact ⟨_, rfl⟩
  | null => exact ⟨_, rfl⟩
  | bool b => exact ⟨_, rfl⟩
  | num n => exact ⟨_, rfl⟩
  | str s => exact ⟨_, rfl⟩

theorem format_summary_entries_ok {items : List Json}
    (h : ∀ it ∈ items, policyItemSafe it = true) :
    ∃ es, exceptMapM (fun policy =>
      match policy with
      | Json.obj fs => do
        let si ← DataProcessor.formatInterfaces ((Json.lookupField fs "srcintf").getD (.arr []))
        let di ← DataProcessor.formatInterfaces ((Json.lookupField fs "dstintf").getD (.arr []))
        Except.ok (Json.obj
          [("name", (Json.lookupField fs "name").getD (.str "Unnamed")),
           ("policy_id", (Json.lookupField fs "policyid").getD (.str "N/A")),
           ("source_interface", si),
           ("destination_interface", di),
           ("action", (Json.lookupField fs "action").getD (.str "N/A"))])
      | _ => Except.error (PyErr.attributeError "object has no attribute 'get'")) items
      = Except.ok es := by
  induction items with
  | nil => exact ⟨[], rfl⟩
  | cons it its ih =>
    obtain ⟨es, hes⟩ := ih (fun x hx => h x (List.mem_cons_of_mem it hx))
    have hit := h it (List.mem_cons_self it its)
    cases it with
    | obj fs =>
      simp only [policyItemSafe, Bool.and_eq_true] at hit
      obtain ⟨hsi, hdi⟩ := hit
      obtain ⟨si, hsi2⟩ := formatInterfaces_ok hsi
      obtain ⟨di, hdi2⟩ := formatInterfaces_ok hdi
      refine ⟨Json.obj
          [("name", (Json.lookupField fs "name").getD (.str "Unnamed")),
           ("policy_id", (Json.lookupField fs "policyid").getD (.str "N/A")),
           ("source_interface", si),
           ("destination_interface", di),
           ("action", (Json.lookupField fs "action").getD (.str "N/A"))] :: es, ?_⟩
      simp [exceptMapM, hsi2, hdi2, hes, except_ok_bind]
    | null => simp [policyItemSafe] at hit
    | bool b => simp [policyItemSafe] at hit
    | num n => simp [policyItemSafe] at hit
    | str s => simp [policyItemSafe] at hit
    | arr l => simp [policyItemSafe] at hit

theorem format_summary_ok {p : Json} (h : policiesValSafe p = true) :
    ∃ s, DataProcessor.format_summary p = .ok s := by
  cases p with
  | arr l =>
    cases l with
    | nil => exact ⟨_, rfl⟩
    | cons x xs =>
      simp only [policiesValSafe, List.all_eq_true] at h
      obtain ⟨es, hes⟩ := @format_summary_entries_ok ((x :: xs).take 5)
        (fun it hit => h it hit)
      refine ⟨Json.obj [("total_policies", .num ((x :: xs).length : Int)),
        ("sample_policies", .arr es)], ?_⟩
      simp only [List.take_succ_cons] at hes
      simp [DataProcessor.format_summary, pyLen, pySlice5, hes, except_ok_bind]
  | str s =>
    have hz : s.length = 0 := by
      simpa [policiesValSafe] using h
    refine ⟨Json.obj [("total_policies", .num ((s.length : Nat) : Int)),
      ("sample_policies", .arr [])], ?_⟩
    simp [DataProcessor.format_summary, pyLen, hz, except_ok_bind]
    rfl
  | obj l =>
    have hz : l.isEmpty := by simpa [policiesValSafe] using h
    have hl : l = [] := by
      cases l with
      | nil => rfl
      | cons a b => simp at hz
    subst hl
    exact ⟨_, rfl⟩
  | null => simp [policiesValSafe] at h
  | bool b => simp [policiesValSafe] at h
  | num n => simp [policiesValSafe] at h

theorem summaryStep_ok {raw : Json} (h : summarySafe raw = true) :
    ∃ s, summaryStep raw = .ok s := by
  cases raw with
  | arr l =>
    obtain ⟨s, hs⟩ := format_summary_ok (by simpa [summarySafe] using h)
    exact ⟨s, by simp [summaryStep, hs]⟩
  | obj fs =>
    cases hlk : Json.lookupField fs "policies" with
    | none =>
      exact ⟨Json.obj [("message", .str "Full configuration stored"),
        ("type", .str (Json.obj fs).typeName)], by simp [summaryStep, hlk]⟩
    | some v =>
      have hv : policiesValSafe v = true := by
        simpa [summarySafe, hlk] using h
      obtain ⟨s, hs⟩ := format_summary_ok hv
      exact ⟨s, by simp [summaryStep, hlk, hs]⟩
  | null => exact ⟨_, rfl⟩
  | bool b => exact ⟨_, rfl⟩
  | num n => exact ⟨_, rfl⟩
  | str s => exact ⟨_, rfl⟩

/-! ## Shared facts about the fallback loop and the store -/

/-- When no candidate is both available and loadable, the fallback loop
produces nothing. -/
theorem tryLoadSamples_none (env : PolicyServiceEnv) :
    ∀ files, (∀ f ∈ files, env.is_sample_data_available f = true →
        ∃ e, env.load_full_json f = .error e) →
      tryLoadSamples env files = .null := by
  intro files
  induction files with
  | nil => intro _; rfl
  | cons f rest ih =>
    intro h
    by_cases ha : env.is_sample_data_available f
    · obtain ⟨e, he⟩ := h f (List.mem_cons_self f rest) ha
      simp [tryLoadSamples, ha, he, ih (fun x hx hav => h x (List.mem_cons_of_mem f hx) hav)]
    · simp [tryLoadSamples, ha, ih (fun x hx hav => h x (List.mem_cons_of_mem f hx) hav)]

/-- With the undefined `load_full_json` every load attempt raises, so the
loop always comes back empty. -/
theorem tryLoadSamples_load_full_json (env : PolicyServiceEnv)
    (hl : env.load_full_json = SampleDataLoader.load_full_json) :
    ∀ files, tryLoadSamples env files = .null := by
  intro files
  refine tryLoadSamples_none env files (fun f _ _ => ?_)
  rw [hl]
  exact ⟨_, rfl⟩

theorem selectLatest_mem : ∀ (rows : List ChRow) (acc : Option ChRow) (b : ChRow),
    rows.foldl
      (fun acc r =>
        match acc with
        | none => some r
        | some b =>
          if b.created_at < r.created_at ∨
              (b.created_at = r.created_at ∧ b.retrieved_at ≤ r.retrieved_at) then some r
          else some b)
      acc = some b →
    acc = some b ∨ b ∈ rows := by
  intro rows
  induction rows with
  | nil => intro acc b h; exact Or.inl h
  | cons r rest ih =>
    intro acc b h
    rcases ih _ b h with hacc | hmem
    · match acc, hacc with
      | none, hacc =>
        have hrb : r = b := Option.some.inj hacc
        exact Or.inr (hrb ▸ List.mem_cons_self r rest)
      | some x, hacc =>
        by_cases hc : x.created_at < r.created_at ∨
            (x.created_at = r.created_at ∧ x.retrieved_at ≤ r.retrieved_at)
        · have hrb : some r = some b := by simpa [hc] using hacc
          exact Or.inr (Option.some.inj hrb ▸ List.mem_cons_self r rest)
        · have hxb : some x = some b := by simpa [hc] using hacc
          exact Or.inl hxb
    · exact Or.inr (List.mem_cons_of_mem r hmem)

/-- When a strictly more recent matching row is appended, the
`ORDER BY created_at DESC … LIMIT 1` selection returns it. -/
theorem selectLatest_append_dominant (rows : List ChRow) (r : ChRow)
    (h : ∀ x ∈ rows, x.created_at < r.created_at) :
    selectLatest (rows ++ [r]) = some r := by
  unfold selectLatest
  rw [List.foldl_append]
  cases hsel : rows.foldl
      (fun acc r =>
        match acc with
        | none => some r
        | some b =>
          if b.created_at < r.created_at ∨
              (b.created_at = r.created_at ∧ b.retrieved_at ≤ r.retrieved_at) then some r
          else some b)
      none with
  | none => rfl
  | some b =>
    have hb : b ∈ rows := by
      rcases selectLatest_mem rows none b hsel with h1 | h2
      · exact absurd h1 (by simp)
      · exact h2
    simp [h b hb]

/-- `find?` over a table whose old rows all miss the predicate finds the
appended row. -/
theorem find_append_right (db : List ChRow) (r : ChRow) (p : ChRow → Bool)
    (h : ∀ x ∈ db, p x = false) (hr : p r = true) :
    (db ++ [r]).find? p = some r := by
  induction db with
  | nil => simp [List.find?, hr]
  | cons x xs ih =>
    have hx := h x (List.mem_cons_self x xs)
    simp only [List.cons_append, List.find?_cons, hx]
    exact ih (fun y hy => h y (List.mem_cons_of_mem x hy))

/-! ## The claims -/

/-- C9: for every table state and every combination of the optional
vendor, device and config-type filters, `get_config_count` with an
injected query failure returns 0 — its only `except` clause catches the
driver's `ClickHouseError` and degrades to 0, so the failure never
reaches the caller (the return type of the embedding is a plain `Nat`:
no exception outcome exists). -/
theorem c9_count_degrades_to_zero (db : List ChRow)
    (vendor_type device_id config_type : Option String) :
    ClickHouseHandler.get_config_count db true vendor_type device_id config_type = 0 := rfl

/-- C4: for every payload that is an array or an object, the
`policies_count` computed by the orchestrator (`countPolicies`,
translated from policy_service.py lines 166-178) equals the spec's
shallow-inspection rule (`specPoliciesCount`, modelled from §3's words):
array length; length of an object's `"policies"` array; a `"policy"`
value's length when it is an array and 1 otherwise; 1 for any other
object. -/
theorem c4_policies_count_rule (raw : Json)
    (h : (∃ l, raw = Json.arr l) ∨ (∃ fs, raw = Json.obj fs)) :
    countPolicies raw = specPoliciesCount raw := by
  rcases h with ⟨l, rfl⟩ | ⟨fs, rfl⟩
  · rfl
  · simp only [countPolicies, specPoliciesCount]
    generalize Json.lookupField fs "policy" = o2
    generalize Json.lookupField fs "policies" = o1
    cases o1 with
    | none =>
      cases o2 with
      | none => rfl
      | some p => cases p <;> rfl
    | some v =>
      cases v <;> try rfl
      all_goals
        cases o2 with
        | none => rfl
        | some p => cases p <;> rfl

/-- Witness for C4 at a concrete object payload with a scalar `"policy"`
value. -/
theorem c4_policies_count_rule_witness :
    ((∃ l, Json.obj [("policy", Json.num 7)] = Json.arr l) ∨
        (∃ fs, Json.obj [("policy", Json.num 7)] = Json.obj fs)) ∧
      countPolicies (Json.obj [("policy", Json.num 7)])
        = specPoliciesCount (Json.obj [("policy", Json.num 7)]) :=
  ⟨Or.inr ⟨_, rfl⟩, c4_policies_count_rule _ (Or.inr ⟨_, rfl⟩)⟩

/-- Counterexample to C10: the id interpolated into the point-lookup
query (`toUUID('{config_id}')`, clickhouse_handler.py line 573) is not
escaped — the interpolated content of an id containing a single quote is
not safe against quote-breaking, and `escape_string` would have changed
it, so no escaping was applied to it. -/
theorem c10_counterexample :
    (getConfigByIdQueryLiterals (⟨['x', '\'', 'y']⟩ : String)).all literalSafe = false
      ∧ escape_string (⟨['x', '\'', 'y']⟩ : String) ≠ (⟨['x', '\'', 'y']⟩ : String) :=
  ⟨rfl, by decide⟩

theorem countQueryLiterals_mem (vendor_type device_id config_type : Option String) :
    ∀ l ∈ countQueryLiterals vendor_type device_id config_type,
      ∃ x, l = (escape_string x).data := by
  intro l hl
  simp only [countQueryLiterals, List.mem_append] at hl
  rcases hl with (h | h) | h
  · cases vendor_type with
    | none => simp at h
    | some x =>
      by_cases hx : x = ""
      · simp [hx] at h
      · simp [hx] at h
        exact ⟨x, h⟩
  · cases device_id with
    | none => simp at h
    | some x =>
      by_cases hx : x = ""
      · simp [hx] at h
      · simp [hx] at h
        exact ⟨x, h⟩
  · cases config_type with
    | none => simp at h
    | some x =>
      by_cases hx : x = ""
      · simp [hx] at h
      · simp [hx] at h
        exact ⟨x, h⟩

/-- C10 amended: the three values interpolated into the post-insert
id-recovery query and every value interpolated into the count query pass
through `escape_string` and are quote-safe; the id of the point lookup,
however, is interpolated verbatim (unescaped) — it is only guarded by the
prior `uuid.UUID` validation, not by escaping.  Escaping is lossless
(`unescapeQuote (escapeQuote s) = s`), so the escaped comparisons match
the original values. -/
theorem c10_escaped_literals :
    (∀ vendor_type device_id config_type : String,
      (insertIdQueryLiterals vendor_type device_id config_type).all literalSafe = true)
    ∧ (∀ vendor_type device_id config_type : Option String,
      (countQueryLiterals vendor_type device_id config_type).all literalSafe = true)
    ∧ (∀ config_id : String, getConfigByIdQueryLiterals config_id = [config_id.data])
    ∧ (∀ s : String, unescapeQuote (escapeQuote s.data) = s.data) := by
  refine ⟨?_, ?_, ?_, ?_⟩
  · intro v d c
    simp [insertIdQueryLiterals, escape_string, literalSafe_escapeQuote]
  · intro v d c
    rw [List.all_eq_true]
    intro l hl
    obtain ⟨x, rfl⟩ := countQueryLiterals_mem v d c l hl
    simpa [escape_string] using literalSafe_escapeQuote x.data
  · intro config_id
    rfl
  · intro s
    exact unescapeQuote_escapeQuote s.data

/-- Counterexample to C5: persisting two payloads returns
`inserted_count = 1` (the literal row count, clickhouse_handler.py
line 385), not the count of logical entries in the input collection,
which is 2. -/
theorem c5_counterexample :
    (ClickHouseHandler.insert_configs [] "11111111-1111-4111-8111-111111111111" 0 none false
        [Json.obj [("policyid", Json.num 1)], Json.obj [("policyid", Json.num 2)]]
        "fortigate" "192.0.2.1" none "policy" none none).map (fun x => x.2.1)
      = .ok 1
    ∧ (1 : Nat)
        ≠ [Json.obj [("policyid", Json.num 1)], Json.obj [("policyid", Json.num 2)]].length := by
  constructor
  · rfl
  · decide

/-- C5 amended: an empty collection returns `(0, None)` without raising
and writes nothing; a non-empty collection (when the driver insert does
not fail) writes exactly one new row — serialized unwrapped for a single
payload and as a JSON array for several — and always returns
`inserted_count = 1`, the literal row count, regardless of how many
logical entries the collection held. -/
theorem c5_persist_semantics (db : List ChRow) (genId : String) (now : Nat)
    (idQueryFail : Bool) (configs : List Json) (vendor_type device_id : String)
    (device_name : Option String) (config_type : String)
    (metadata : Option Json) (version : Option String) :
    (configs = [] → ∀ insertFail,
      ClickHouseHandler.insert_configs db genId now insertFail idQueryFail configs
          vendor_type device_id device_name config_type metadata version
        = .ok (db, 0, none))
    ∧ (configs ≠ [] →
      (ClickHouseHandler.insert_configs db genId now none idQueryFail configs
          vendor_type device_id device_name config_type metadata version).map
            (fun x => (x.1, x.2.1))
        = .ok (db ++
            [{ id := genId, vendor_type := vendor_type, device_id := device_id,
               device_name := orDefault device_name device_id, config_type := config_type,
               config_json :=
                 match configs with
                 | [c] => dumps c
                 | _ => dumps (.arr configs),
               metadata := dumps (orEmptyObj metadata), version := version.getD "",
               created_at := now, retrieved_at := now }], 1)) := by
  constructor
  · intro hc insertFail
    subst hc
    rfl
  · intro hne
    cases configs with
    | nil => exact absurd rfl hne
    | cons c cs =>
      by_cases hq : idQueryFail
      · subst hq
        rfl
      · simp only [ClickHouseHandler.insert_configs, if_neg hq]
        split <;> rfl

/-- Witness for C5 at a one-element collection. -/
theorem c5_persist_semantics_witness :
    ([Json.obj []] ≠ ([] : List Json)) ∧
      (ClickHouseHandler.insert_configs [] "id-1" 0 none false [Json.obj []]
          "fortigate" "dev-1" none "policy" none none).map (fun x => (x.1, x.2.1))
        = .ok ([{ id := "id-1", vendor_type := "fortigate", device_id := "dev-1",
                  device_name := "dev-1", config_type := "policy",
                  config_json := dumps (Json.obj []), metadata := dumps (Json.obj []),
                  version := "", created_at := 0, retrieved_at := 0 }], 1) :=
  ⟨by decide,
    (c5_persist_semantics [] "id-1" 0 false [Json.obj []]
      "fortigate" "dev-1" none "policy" none none).2 (by decide)⟩

/-- C2: whenever the collaborators are the repository's own classes —
the fetch call is `FortiGateClient.fetch_raw_config` and the sample load
is `SampleDataLoader.load_full_json`, neither of which is defined, so
both raise `AttributeError` — no invocation of
`fetch_and_store_policies` ever obtains a payload: for every remaining
environment and every flag combination the call returns (does not raise)
`success = false` with the non-empty terminal error message, and
performs no store call. -/
theorem c2_no_payload_ever (env : PolicyServiceEnv) (store_in_db use_sample_data : Bool)
    (hf : env.fetch_raw_config = FortiGateClient.fetch_raw_config)
    (hl : env.load_full_json = SampleDataLoader.load_full_json) :
    (PolicyService.fetch_and_store_policies env store_in_db use_sample_data).outcome
        = .ok { success := false, policies_count := 0, db_stored := false, db_count := 0,
                config_id := none, summary := none, error := some noSampleMsg,
                data_source := "api" }
      ∧ noSampleMsg ≠ ""
      ∧ (PolicyService.fetch_and_store_policies env store_in_db use_sample_data).storeCalls
          = [] := by
  have hnull := tryLoadSamples_load_full_json env hl sample_files
  have hsrc : sourcePhase env use_sample_data = .failed noSampleMsg := by
    cases hus : use_sample_data with
    | true => simp [sourcePhase, hus, hnull]
    | false =>
      cases hcl : env.clientResolved with
      | false => simp [sourcePhase, hcl, hnull]
      | true => simp [sourcePhase, hcl, hf, FortiGateClient.fetch_raw_config, hnull]
  refine ⟨?_, by decide, ?_⟩
  · simp [PolicyService.fetch_and_store_policies, hsrc]
  · simp [PolicyService.fetch_and_store_policies, hsrc]

/-- An environment whose fetch and load methods are the repository's
missing ones; every other collaborator is maximally cooperative. -/
def c2WitnessEnv : PolicyServiceEnv :=
  { clientResolved := true
    fetch_raw_config := FortiGateClient.fetch_raw_config
    is_sample_data_available := fun _ => true
    load_full_json := SampleDataLoader.load_full_json
    handlerPresent := true
    ensure_database_exists := .ok ()
    create_table := .ok ()
    insert_configs_result := .ok (1, some "11111111-1111-4111-8111-111111111111")
    get_policy_count_result := 1 }

/-- Witness for C2 at a fully cooperative environment. -/
theorem c2_no_payload_ever_witness :
    (PolicyService.fetch_and_store_policies c2WitnessEnv true false).outcome
        = .ok { success := false, policies_count := 0, db_stored := false, db_count := 0,
                config_id := none, summary := none, error := some noSampleMsg,
                data_source := "api" }
      ∧ noSampleMsg ≠ ""
      ∧ (PolicyService.fetch_and_store_policies c2WitnessEnv true false).storeCalls = [] :=
  c2_no_payload_ever c2WitnessEnv true false rfl rfl

/-- C3: when no live source is resolved or the live fetch fails, and no
sample candidate is both available and loadable, the call returns
`success = false` with the non-empty terminal error and performs no
store call of any kind — the terminal failure path of lines 146-155. -/
theorem c3_terminal_failure (env : PolicyServiceEnv) (store_in_db use_sample_data : Bool)
    (hsrc : env.clientResolved = false ∨ ∃ e, env.fetch_raw_config = .error e)
    (hnosample : ∀ f ∈ sample_files, env.is_sample_data_available f = true →
      ∃ e, env.load_full_json f = .error e) :
    (PolicyService.fetch_and_store_policies env store_in_db use_sample_data).outcome
        = .ok { success := false, policies_count := 0, db_stored := false, db_count := 0,
                config_id := none, summary := none, error := some noSampleMsg,
                data_source := "api" }
      ∧ noSampleMsg ≠ ""
      ∧ (PolicyService.fetch_and_store_policies env store_in_db use_sample_data).storeCalls
          = [] := by
  have hnull := tryLoadSamples_none env sample_files hnosample
  have hfailed : sourcePhase env use_sample_data = .failed noSampleMsg := by
    rcases hsrc with hcl | ⟨e, he⟩
    · simp [sourcePhase, hcl, hnull]
    · cases hus : use_sample_data with
      | true => simp [sourcePhase, hus, hnull]
      | false =>
        cases hcl2 : env.clientResolved with
        | false => simp [sourcePhase, hcl2, hnull]
        | true => simp [sourcePhase, hcl2, he, hnull]
  refine ⟨?_, by decide, ?_⟩
  · simp [PolicyService.fetch_and_store_policies, hfailed]
  · simp [PolicyService.fetch_and_store_policies, hfailed]

/-- An environment with no resolved client and no available sample
file. -/
def c3WitnessEnv : PolicyServiceEnv :=
  { clientResolved := false
    fetch_raw_config := .ok (.arr [])
    is_sample_data_available := fun _ => false
    load_full_json := fun _ => .ok (.arr [])
    handlerPresent := true
    ensure_database_exists := .ok ()
    create_table := .ok ()
    insert_configs_result := .ok (1, none)
    get_policy_count_result := 0 }

/-- Witness for C3: nothing configured, stores untouched. -/
theorem c3_terminal_failure_witness :
    (PolicyService.fetch_and_store_policies c3WitnessEnv true false).outcome
        = .ok { success := false, policies_count := 0, db_stored := false, db_count := 0,
                config_id := none, summary := none, error := some noSampleMsg,
                data_source := "api" }
      ∧ noSampleMsg ≠ ""
      ∧ (PolicyService.fetch_and_store_policies c3WitnessEnv true false).storeCalls = [] :=
  c3_terminal_failure c3WitnessEnv true false (Or.inl rfl)
    (fun _ _ hav => nomatch hav)

/-- With both collaborator methods missing, the source phase always ends
in the terminal failure, whichever flags and remaining environment are
given. -/
theorem sourcePhase_missing_methods (env : PolicyServiceEnv) (use_sample_data : Bool)
    (hf : env.fetch_raw_config = FortiGateClient.fetch_raw_config)
    (hl : env.load_full_json = SampleDataLoader.load_full_json) :
    sourcePhase env use_sample_data = .failed noSampleMsg := by
  have hnull := tryLoadSamples_load_full_json env hl sample_files
  cases hus : use_sample_data with
  | true => simp [sourcePhase, hus, hnull]
  | false =>
    cases hcl : env.clientResolved with
    | false => simp [sourcePhase, hcl, hnull]
    | true => simp [sourcePhase, hcl, hf, FortiGateClient.fetch_raw_config, hnull]

/-- C1: with the repository's collaborators, a resolved live client's
fetch is always attempted and always fails (`AttributeError`: the method
does not exist), and the orchestrator does not propagate the error — it
falls back to the sample candidates and returns a result.  The claim's
conditional success clause holds (vacuously: no sample candidate ever
loads, `load_full_json` being missing too, so the fallback payload is
always `None`), and the call returns the terminal `success = false`
result without raising: Ingest never raises for this case. -/
theorem c1_fetch_failure_not_propagated (env : PolicyServiceEnv) (store_in_db : Bool)
    (_hclient : env.clientResolved = true)
    (hf : env.fetch_raw_config = FortiGateClient.fetch_raw_config)
    (hl : env.load_full_json = SampleDataLoader.load_full_json) :
    (∃ e, env.fetch_raw_config = .error e)
    ∧ (∀ j, tryLoadSamples env sample_files = j → j ≠ .null →
        ∃ r, (PolicyService.fetch_and_store_policies env store_in_db false).outcome = .ok r
          ∧ r.data_source = "sample" ∧ r.success = true)
    ∧ (PolicyService.fetch_and_store_policies env store_in_db false).outcome
        = .ok { success := false, policies_count := 0, db_stored := false, db_count := 0,
                config_id := none, summary := none, error := some noSampleMsg,
                data_source := "api" } := by
  have hnull := tryLoadSamples_load_full_json env hl sample_files
  have hsrc := sourcePhase_missing_methods env false hf hl
  refine ⟨⟨.attributeError "'FortiGateClient' object has no attribute 'fetch_raw_config'",
    by rw [hf]; rfl⟩, ?_, ?_⟩
  · intro j hj hnn
    rw [hnull] at hj
    exact absurd hj.symm hnn
  · simp [PolicyService.fetch_and_store_policies, hsrc]

/-- The repository's own collaborators: live client configured, sample
files present on disk, database healthy. -/
def c1WitnessEnv : PolicyServiceEnv :=
  { clientResolved := true
    fetch_raw_config := FortiGateClient.fetch_raw_config
    is_sample_data_available := fun _ => true
    load_full_json := SampleDataLoader.load_full_json
    handlerPresent := true
    ensure_database_exists := .ok ()
    create_table := .ok ()
    insert_configs_result := .ok (1, some "11111111-1111-4111-8111-111111111111")
    get_policy_count_result := 1 }

/-- Witness for C1 at the repository's own collaborators. -/
theorem c1_fetch_failure_not_propagated_witness :
    (∃ e, c1WitnessEnv.fetch_raw_config = .error e)
    ∧ (∀ j, tryLoadSamples c1WitnessEnv sample_files = j → j ≠ .null →
        ∃ r, (PolicyService.fetch_and_store_policies c1WitnessEnv true false).outcome = .ok r
          ∧ r.data_source = "sample" ∧ r.success = true)
    ∧ (PolicyService.fetch_and_store_policies c1WitnessEnv true false).outcome
        = .ok { success := false, policies_count := 0, db_stored := false, db_count := 0,
                config_id := none, summary := none, error := some noSampleMsg,
                data_source := "api" } :=
  c1_fetch_failure_not_propagated c1WitnessEnv true rfl rfl rfl

/-- C7: with the repository's collaborators no fetch and no sample load
ever succeeds — both methods are missing — so the persist-after-retrieval
phase is unreachable: the source phase never yields a payload, no store
call (hence no persist failure after retrieval) ever occurs, and the
claim's conditional — a store failure after a successful retrieval
leaves a caught, recorded `"Database operation failed: ..."` error and a
`success = true` result with the computed count and unchanged source —
holds (vacuously) of every execution. -/
theorem c7_persist_phase_unreachable (env : PolicyServiceEnv)
    (store_in_db use_sample_data : Bool)
    (hf : env.fetch_raw_config = FortiGateClient.fetch_raw_config)
    (hl : env.load_full_json = SampleDataLoader.load_full_json) :
    (∀ j ds, sourcePhase env use_sample_data ≠ .payload j ds)
    ∧ (PolicyService.fetch_and_store_policies env store_in_db use_sample_data).storeCalls = []
    ∧ (∀ j ds m, sourcePhase env use_sample_data = .payload j ds →
        (env.ensure_database_exists = .error m
          ∨ (env.ensure_database_exists = .ok () ∧ env.create_table = .error m)
          ∨ (env.ensure_database_exists = .ok () ∧ env.create_table = .ok ()
              ∧ env.insert_configs_result = .error m)) →
        ∃ r, (PolicyService.fetch_and_store_policies env store_in_db use_sample_data).outcome
            = .ok r
          ∧ r.success = true
          ∧ r.error = some ("Database operation failed: " ++ m)
          ∧ r.policies_count = countPolicies j
          ∧ r.data_source = ds) := by
  have hsrc := sourcePhase_missing_methods env use_sample_data hf hl
  refine ⟨?_, ?_, ?_⟩
  · intro j ds h
    rw [hsrc] at h
    exact SourceOutcome.noConfusion h
  · simp [PolicyService.fetch_and_store_policies, hsrc]
  · intro j ds m h _
    rw [hsrc] at h
    exact SourceOutcome.noConfusion h

/-- The repository's own collaborators with the database down. -/
def c7WitnessEnv : PolicyServiceEnv :=
  { clientResolved := true
    fetch_raw_config := FortiGateClient.fetch_raw_config
    is_sample_data_available := fun _ => true
    load_full_json := SampleDataLoader.load_full_json
    handlerPresent := true
    ensure_database_exists := .error "Connection refused"
    create_table := .ok ()
    insert_configs_result := .ok (1, none)
    get_policy_count_result := 0 }

/-- Witness for C7 at the repository's own collaborators with the
database down. -/
theorem c7_persist_phase_unreachable_witness :
    (∀ j ds, sourcePhase c7WitnessEnv false ≠ .payload j ds)
    ∧ (PolicyService.fetch_and_store_policies c7WitnessEnv true false).storeCalls = []
    ∧ (∀ j ds m, sourcePhase c7WitnessEnv false = .payload j ds →
        (c7WitnessEnv.ensure_database_exists = .error m
          ∨ (c7WitnessEnv.ensure_database_exists = .ok ()
              ∧ c7WitnessEnv.create_table = .error m)
          ∨ (c7WitnessEnv.ensure_database_exists = .ok ()
              ∧ c7WitnessEnv.create_table = .ok ()
              ∧ c7WitnessEnv.insert_configs_result = .error m)) →
        ∃ r, (PolicyService.fetch_and_store_policies c7WitnessEnv true false).outcome = .ok r
          ∧ r.success = true
          ∧ r.error = some ("Database operation failed: " ++ m)
          ∧ r.policies_count = countPolicies j
          ∧ r.data_source = ds) :=
  c7_persist_phase_unreachable c7WitnessEnv true false rfl rfl

/-- A configured handler whose connection check succeeds, rejecting every
id as a UUID. -/
def c8CounterEnv : LookupEnv :=
  { handlerPresent := true
    ensure_database_exists := .ok ()
    uuidValid := fun _ => false
    db := []
    queryFail := none }

/-- Counterexample to C8: the invalid-id `ValueError` is raised, but not
before any store access — `ensure_database_exists` has already run
(policy_service.py line 275 precedes the handler call at line 278 whose
UUID validation happens at clickhouse_handler.py line 545), so the trace
of store calls at the failure is non-empty. -/
theorem c8_counterexample :
    (PolicyService.get_config_by_id c8CounterEnv "not-a-uuid").1
        = .error (.valueError "Invalid UUID format: not-a-uuid")
      ∧ (PolicyService.get_config_by_id c8CounterEnv "not-a-uuid").2 ≠ [] :=
  ⟨rfl, by decide⟩

/-- C8 amended: with a configured handler and a healthy connection check,
a syntactically invalid id raises `ValueError` before the point query is
issued — but after the `ensure_database_exists` store access, which always
runs first (the trace is exactly `[ensureDatabase]`, with no `getQuery`);
a well-formed id that matches no stored row is a non-exceptional
not-found outcome: the handler's `Store.Get` returns `None` and the
service returns a `success = false` result, not an error. -/
theorem c8_lookup_contract (env : LookupEnv) (config_id : String)
    (hh : env.handlerPresent = true)
    (he : env.ensure_database_exists = .ok ()) :
    (env.uuidValid config_id = false →
      (PolicyService.get_config_by_id env config_id).1
          = .error (.valueError ("Invalid UUID format: " ++ config_id))
        ∧ (PolicyService.get_config_by_id env config_id).2 = [.ensureDatabase])
    ∧ (env.uuidValid config_id = true → env.queryFail = none →
        (∀ r ∈ env.db, r.id ≠ config_id) →
      ClickHouseHandler.get_config_by_id env.uuidValid env.db none config_id = .ok none
        ∧ (PolicyService.get_config_by_id env config_id).1
            = .ok { success := false, config := none,
                    error := some ("Configuration with ID " ++ config_id ++ " not found") }) := by
  constructor
  · intro hv
    have hget : ClickHouseHandler.get_config_by_id env.uuidValid env.db env.queryFail config_id
        = .error (.valueError ("Invalid UUID format: " ++ config_id)) := by
      simp [ClickHouseHandler.get_config_by_id, hv]
    constructor
    · simp [PolicyService.get_config_by_id, hh, he, hget]
    · simp [PolicyService.get_config_by_id, hh, he, hget, hv]
  · intro hv hq hnone
    have hfind : env.db.find? (fun r => r.id == config_id) = none := by
      rw [List.find?_eq_none]
      intro x hx
      simp [hnone x hx]
    have hget : ClickHouseHandler.get_config_by_id env.uuidValid env.db none config_id
        = .ok none := by
      simp [ClickHouseHandler.get_config_by_id, hv, hfind]
    refine ⟨hget, ?_⟩
    simp [PolicyService.get_config_by_id, hh, he, hq, hget]

/-- A configured handler over an empty table accepting one UUID. -/
def c8WitnessEnv : LookupEnv :=
  { handlerPresent := true
    ensure_database_exists := .ok ()
    uuidValid := fun s => s == "22222222-2222-4222-8222-222222222222"
    db := []
    queryFail := none }

/-- Witness for C8's amended property: a well-formed but absent id is a
non-exceptional not-found result. -/
theorem c8_lookup_contract_witness :
    ClickHouseHandler.get_config_by_id c8WitnessEnv.uuidValid c8WitnessEnv.db none
        "22222222-2222-4222-8222-222222222222" = .ok none
    ∧ (PolicyService.get_config_by_id c8WitnessEnv "22222222-2222-4222-8222-222222222222").1
        = .ok { success := false, config := none,
                error := some ("Configuration with ID 22222222-2222-4222-8222-222222222222 not found") } :=
  (c8_lookup_contract c8WitnessEnv "22222222-2222-4222-8222-222222222222" rfl rfl).2
    rfl rfl (fun _ hr => nomatch hr)

/-- The single row `insert_configs` writes for a non-empty collection
(clickhouse_handler.py lines 304-345), named so the round-trip theorem
can mention it. -/
def insertedRow (genId : String) (now : Nat) (configs : List Json)
    (vendor_type device_id : String) (device_name : Option String)
    (config_type : String) (metadata : Option Json) (version : Option String) : ChRow :=
  { id := genId, vendor_type := vendor_type, device_id := device_id,
    device_name := orDefault device_name device_id, config_type := config_type,
    config_json :=
      match configs with
      | [c] => dumps c
      | _ => dumps (.arr configs),
    metadata := dumps (orEmptyObj metadata), version := version.getD "",
    created_at := now, retrieved_at := now }

/-- The id-recovery query finds the just-inserted row when it is strictly
newer than every matching older row. -/
theorem insertIdLookup_fresh (db : List ChRow) (row : ChRow) (v d ct : String)
    (hdom : ∀ x ∈ db, x.created_at < row.created_at)
    (hmatch : rowKeyMatches row v d ct = true) :
    insertIdLookup (db ++ [row]) v d ct = some row.id := by
  unfold insertIdLookup
  rw [List.filter_append]
  have hrow : List.filter (fun r => rowKeyMatches r v d ct) [row] = [row] := by
    simp [hmatch]
  rw [hrow, selectLatest_append_dominant _ row
    (fun x hx => hdom x (List.mem_of_mem_filter hx))]
  rfl

theorem insert_configs_step (db : List ChRow) (genId : String) (now : Nat)
    (c : Json) (cs : List Json) (vendor_type device_id : String)
    (device_name : Option String) (config_type : String)
    (metadata : Option Json) (version : Option String)
    (hlk : insertIdLookup
        (db ++ [insertedRow genId now (c :: cs) vendor_type device_id device_name
          config_type metadata version]) vendor_type device_id config_type = some genId) :
    ClickHouseHandler.insert_configs db genId now none false (c :: cs) vendor_type device_id
        device_name config_type metadata version
      = .ok (db ++ [insertedRow genId now (c :: cs) vendor_type device_id device_name
          config_type metadata version], 1, some genId) := by
  show (match insertIdLookup
        (db ++ [insertedRow genId now (c :: cs) vendor_type device_id device_name
          config_type metadata version]) vendor_type device_id config_type with
      | some cid =>
        (Except.ok (db ++ [insertedRow genId now (c :: cs) vendor_type device_id device_name
          config_type metadata version], 1, some cid) :
            Except String (List ChRow × Nat × Option String))
      | none =>
        Except.ok (db ++ [insertedRow genId now (c :: cs) vendor_type device_id device_name
          config_type metadata version], 1, none))
      = Except.ok (db ++ [insertedRow genId now (c :: cs) vendor_type device_id device_name
          config_type metadata version], 1, some genId)
  rw [hlk]

theorem dumps_ne_empty (j : Json) : dumps j ≠ "" := by
  obtain ⟨c, cs, hpj, _⟩ := printJson_head j
  intro h
  have hdata : printJson j = [] := congrArg String.data h
  rw [hpj] at hdata
  exact List.noConfusion hdata

/-- The read-path deserialisation undoes the write-path serialisation. -/
theorem parseStoredField_dumps (j : Json) : parseStoredField (dumps j) = .parsed j := by
  unfold parseStoredField
  rw [if_neg (dumps_ne_empty j), loads_dumps]

theorem find_inserted (db : List ChRow) (row : ChRow) (genId : String)
    (hfresh : ∀ x ∈ db, x.id ≠ genId) (hid : row.id = genId) :
    (db ++ [row]).find? (fun r => r.id == genId) = some row :=
  find_append_right db row _ (fun x hx => beq_eq_false_iff_ne.mpr (hfresh x hx))
    (by simp [hid])

/-- C6: persisting a non-empty collection under a fresh server-generated
UUID and a fresh clock tick writes exactly the one row holding the
single payload unwrapped (`N = 1`) or the array (`N > 1`), returns that
UUID, and retrieving by it reproduces the original payload under JSON
round-trip equality, with `config_json` and `metadata` deserialized back
into structured values; and for malformed stored JSON the read path
falls back to the raw string instead of throwing. -/
theorem c6_roundtrip (db : List ChRow) (genId : String) (now : Nat)
    (configs : List Json) (vendor_type device_id : String) (device_name : Option String)
    (config_type : String) (metadata : Option Json) (version : Option String)
    (uuidValid : String → Bool)
    (hne : configs ≠ [])
    (hfresh : ∀ r ∈ db, r.id ≠ genId)
    (hdom : ∀ r ∈ db, r.created_at < now)
    (huuid : uuidValid genId = true) :
    ClickHouseHandler.insert_configs db genId now none false configs vendor_type device_id
        device_name config_type metadata version
      = .ok (db ++ [insertedRow genId now configs vendor_type device_id device_name
          config_type metadata version], 1, some genId)
    ∧ ClickHouseHandler.get_config_by_id uuidValid
        (db ++ [insertedRow genId now configs vendor_type device_id device_name
          config_type metadata version]) none genId
      = .ok (some
          { id := genId, vendor_type := vendor_type, device_id := device_id,
            device_name := orDefault device_name device_id, config_type := config_type,
            config_json :=
              .parsed (match configs with
                       | [c] => c
                       | _ => .arr configs),
            metadata := .parsed (orEmptyObj metadata), version := version.getD "",
            created_at := now, retrieved_at := now })
    ∧ (∀ s : String, s ≠ "" → loads s = none → parseStoredField s = .raw s) := by
  cases configs with
  | nil => exact absurd rfl hne
  | cons c cs =>
    have hmatch : rowKeyMatches (insertedRow genId now (c :: cs) vendor_type device_id
        device_name config_type metadata version) vendor_type device_id config_type = true := by
      simp [rowKeyMatches, insertedRow]
    have hdom2 : ∀ x ∈ db, x.created_at < (insertedRow genId now (c :: cs) vendor_type
        device_id device_name config_type metadata version).created_at := by
      intro x hx
      simpa [insertedRow] using hdom x hx
    have hlk : insertIdLookup (db ++ [insertedRow genId now (c :: cs) vendor_type device_id
        device_name config_type metadata version]) vendor_type device_id config_type
          = some genId := by
      rw [insertIdLookup_fresh db _ vendor_type device_id config_type hdom2 hmatch]
      rfl
    refine ⟨insert_configs_step db genId now c cs vendor_type device_id device_name
        config_type metadata version hlk, ?_,
      fun s hs hload => by unfold parseStoredField; rw [if_neg hs, hload]⟩
    have hfind : (db ++ [insertedRow genId now (c :: cs) vendor_type device_id device_name
        config_type metadata version]).find? (fun r => r.id == genId)
          = some (insertedRow genId now (c :: cs) vendor_type device_id device_name
            config_type metadata version) :=
      find_inserted db _ genId hfresh (by simp [insertedRow])
    simp only [ClickHouseHandler.get_config_by_id, huuid]
    rw [hfind]
    cases cs with
    | nil => simp [insertedRow, parseStoredField_dumps]
    | cons c2 cs2 => simp [insertedRow, parseStoredField_dumps]

/-- Witness for C6 at a concrete one-payload ingestion into an empty
table. -/
theorem c6_roundtrip_witness :
    ([Json.obj [("policyid", Json.num 3)]] ≠ ([] : List Json))
    ∧ (ClickHouseHandler.insert_configs [] "33333333-3333-4333-8333-333333333333" 5 none false
          [Json.obj [("policyid", Json.num 3)]] "fortigate" "fw1" none "policy"
          (some (Json.obj [("data_source", Json.str "api")])) none
        = .ok ([] ++ [insertedRow "33333333-3333-4333-8333-333333333333" 5
            [Json.obj [("policyid", Json.num 3)]] "fortigate" "fw1" none "policy"
            (some (Json.obj [("data_source", Json.str "api")])) none], 1,
            some "33333333-3333-4333-8333-333333333333")
      ∧ ClickHouseHandler.get_config_by_id
          (fun s => s == "33333333-3333-4333-8333-333333333333")
          ([] ++ [insertedRow "33333333-3333-4333-8333-333333333333" 5
            [Json.obj [("policyid", Json.num 3)]] "fortigate" "fw1" none "policy"
            (some (Json.obj [("data_source", Json.str "api")])) none]) none
          "33333333-3333-4333-8333-333333333333"
        = .ok (some
            { id := "33333333-3333-4333-8333-333333333333", vendor_type := "fortigate",
              device_id := "fw1", device_name := "fw1", config_type := "policy",
              config_json := .parsed (Json.obj [("policyid", Json.num 3)]),
              metadata := .parsed (Json.obj [("data_source", Json.str "api")]),
              version := "", created_at := 5, retrieved_at := 5 })
      ∧ (∀ s : String, s ≠ "" → loads s = none → parseStoredField s = .raw s)) :=
  ⟨by decide, c6_roundtrip [] "33333333-3333-4333-8333-333333333333" 5
    [Json.obj [("policyid", Json.num 3)]] "fortigate" "fw1" none "policy"
    (some (Json.obj [("data_source", Json.str "api")])) none
    (fun s => s == "33333333-3333-4333-8333-333333333333")
    (by decide) (fun _ hr => nomatch hr) (fun _ hr => nomatch hr) rfl⟩
